import Mathlib

/-!
Verification of the HACKATHON-TODO-APP backend services against their
natural-language specification.

The Python sources embedded here (shallowly, as executable Lean functions):
 * `phase4/backend/src/services/agent_service.py`
     (`_sanitize_response`, `_detect_intent`, `_parse_text_tool_calls`,
      the per-turn tool execution loop of `process_message`)
 * `phase4/backend/src/mcp/server.py` (`MCPToolRegistry`)
 * `phase4/backend/src/services/suggestions.py`
     (`suggest_priority`, `estimate_time`)
 * `phase4/backend/src/services/context_manager.py`
 * `phase3/backend/src/utils/date_parser.py`
     (`parse_natural_date`, `parse_time_from_text`, `parse_date_and_time`)

Python regular expressions are embedded via a small backtracking regex
engine (`RE`, `mRE`) whose alternative order reproduces CPython `re`
backtracking priority (leftmost match, greedy/lazy repetition, ordered
alternation).  Each Python pattern is transcribed into an `RE` value next
to a comment quoting the original pattern.  The engine is fuelled; the
fuel bound `reFuel` comfortably dominates the backtracking depth for the
pattern/input sizes that appear here, and all universally quantified
lemmas about the engine are proved for every fuel value.

Python `float` confidence literals are modelled as exact rationals; for
the arithmetic appearing here (`min(x + 0.05, 1.0)`, `min(0.9, 0.5 +
n*0.1)`) the rational and IEEE-754 results agree on the properties
stated.  Python `str` is modelled as Lean `String` (operating on
`List Char`); the inputs exercised are ASCII or literal Urdu strings,
on which Python's `str.lower`/`str.strip` agree with the ASCII models
used here.
-/

/-! ## Python string helpers -/

/-- ASCII whitespace, as in Python's `str.strip()` / `\s` for the ASCII range:
space, tab, newline, carriage return, vertical tab, form feed. -/
def pyIsSpace (c : Char) : Bool :=
  c = ' ' || c = '\t' || c = '\n' || c = '\r' || c = Char.ofNat 11 || c = Char.ofNat 12

/-- Python `\w` (ASCII range): letters, digits, underscore. -/
def pyIsWord (c : Char) : Bool :=
  c.isAlpha || c.isDigit || c = '_'

/-- Source ``str.lower()` (ASCII model; identity on the non-ASCII letters used here,
matching Python on the Urdu-script strings that appear in the sources). -/
def pyLower (s : String) : String :=
  ⟨s.data.map Char.toLower⟩

/-- Source ``str.strip()` on a character list. -/
def listStrip (s : List Char) : List Char :=
  ((s.dropWhile pyIsSpace).reverse.dropWhile pyIsSpace).reverse

/-- Source ``str.strip()`. -/
def pyStrip (s : String) : String :=
  ⟨listStrip s.data⟩

/-- Source ``str.strip(chars)`: strip any of the given characters from both ends. -/
def pyStripChars (cs : List Char) (s : String) : String :=
  ⟨((s.data.dropWhile (cs.contains ·)).reverse.dropWhile (cs.contains ·)).reverse⟩

/-- Substring test on character lists (`needle` occurs contiguously in `hay`). -/
def listHasSub (hay needle : List Char) : Bool :=
  needle.isPrefixOf hay ||
    match hay with
    | [] => false
    | _ :: t => listHasSub t needle

/-- Python `needle in hay` for strings. -/
def pyIn (needle hay : String) : Bool :=
  listHasSub hay.data needle.data

/-- Python `str.title()`: uppercase every cased character that follows a
non-cased character, lowercase the rest (ASCII model). -/
def pyTitleGo : Bool → List Char → List Char
  | _, [] => []
  | prevAlpha, c :: t =>
    if c.isAlpha then
      (if prevAlpha then c.toLower else c.toUpper) :: pyTitleGo true t
    else
      c :: pyTitleGo false t

/-- Python `str.title()`. -/
def pyTitle (s : String) : String :=
  ⟨pyTitleGo false s.data⟩

/-- Source ``int(s)` for a nonempty string of ASCII digits. -/
def digitsToNat (s : List Char) : Nat :=
  s.foldl (fun acc c => acc * 10 + (c.toNat - '0'.toNat)) 0

/-- Python `str.split()` (split on whitespace runs, no empty words). -/
def pySplitWsGo : List Char → List Char → List (List Char)
  | acc, [] => if acc = [] then [] else [acc.reverse]
  | acc, c :: t =>
    if pyIsSpace c then
      (if acc = [] then [] else [acc.reverse]) ++ pySplitWsGo [] t
    else
      pySplitWsGo (c :: acc) t

/-- Python `str.split()` returning strings. -/
def pySplitWs (s : String) : List String :=
  (pySplitWsGo [] s.data).map (⟨·⟩)

/-- Remove duplicates keeping first occurrences (Python `set` cardinality
is computed from deduplicated lists). -/
def nubStrGo : List String → List String → List String
  | _, [] => []
  | seen, x :: t =>
    if seen.contains x then nubStrGo seen t
    else x :: nubStrGo (x :: seen) t

def nubStr (l : List String) : List String := nubStrGo [] l

/-! ## A backtracking regex engine

Character classes. `anyNoNL` is `.` without `re.DOTALL`; `anyAll` is `.`
with `re.DOTALL`. -/

inductive CKind where
  | ws          -- \s
  | word        -- \w
  | digit       -- \d
  | anyNoNL     -- .  (no DOTALL)
  | anyAll      -- .  (DOTALL)
  | oneOf (cs : List Char)
  | noneOf (cs : List Char)
deriving DecidableEq, Repr

def matchCls : CKind → Char → Bool
  | .ws, c => pyIsSpace c
  | .word, c => pyIsWord c
  | .digit, c => c.isDigit
  | .anyNoNL, c => c ≠ '\n'
  | .anyAll, _ => true
  | .oneOf cs, c => cs.contains c
  | .noneOf cs, c => ¬ cs.contains c

/-- Regex abstract syntax.  `rep lo hi greedy a` is `a{lo,hi}` (`hi = none`
for unbounded); `grp i a` is capturing group number `i`; `eol` is `$`
(end of string, or just before a final newline, as in Python without
`re.MULTILINE`). -/
inductive RE where
  | str (cs : List Char)
  | cls (k : CKind)
  | seq (a b : RE)
  | alt (a b : RE)
  | rep (lo : Nat) (hi : Option Nat) (greedy : Bool) (a : RE)
  | grp (i : Nat) (a : RE)
  | eol
deriving DecidableEq, Repr

/-- Group captures: association list from group index to captured characters. -/
abbrev Caps := List (Nat × List Char)

def getCap (caps : Caps) (i : Nat) : Option (List Char) :=
  (caps.find? (·.1 = i)).map (·.2)

/-- Merge captures of two sequenced sub-matches; entries of the second
(later) sub-match take precedence. -/
def mergeCaps (ca cb : Caps) : Caps := cb ++ ca

/-- The backtracking matcher.  `mRE fuel r s` returns every way `r` can
match a prefix of `s`, as `(captures, rest-of-input)` pairs, in CPython
backtracking priority order (the overall leftmost-preferred match is the
head of the list computed by the caller `reSearch`). -/
def mRE : Nat → RE → List Char → List (Caps × List Char)
  | 0, _, _ => []
  | _ + 1, .str cs, s =>
    if cs.isPrefixOf s then [([], s.drop cs.length)] else []
  | _ + 1, .cls k, s =>
    match s with
    | [] => []
    | c :: t => if matchCls k c then [([], t)] else []
  | f + 1, .seq a b, s =>
    (mRE f a s).flatMap fun (ca, s1) =>
      (mRE f b s1).map fun (cb, s2) => (mergeCaps ca cb, s2)
  | f + 1, .alt a b, s => mRE f a s ++ mRE f b s
  | f + 1, .grp i a, s =>
    (mRE f a s).map fun (c, s1) =>
      ((i, s.take (s.length - s1.length)) :: c, s1)
  | _ + 1, .eol, s =>
    if s = [] ∨ s = ['\n'] then [([], s)] else []
  | f + 1, .rep lo hi g a, s =>
    match lo with
    | l + 1 =>
      (mRE f a s).flatMap fun (ca, s1) =>
        (mRE f (.rep l (hi.map (· - 1)) g a) s1).map fun (cb, s2) =>
          (mergeCaps ca cb, s2)
    | 0 =>
      if hi = some 0 then [([], s)]
      else
        let step :=
          (mRE f a s).flatMap fun (ca, s1) =>
            if s1.length < s.length then
              (mRE f (.rep 0 (hi.map (· - 1)) g a) s1).map fun (cb, s2) =>
                (mergeCaps ca cb, s2)
            else []
        if g then step ++ [([], s)] else ([], s) :: step

/-- Syntax size of a regex, used for the fuel bound. -/
def reSize : RE → Nat
  | .str cs => cs.length + 1
  | .cls _ => 1
  | .seq a b => reSize a + reSize b + 1
  | .alt a b => reSize a + reSize b + 1
  | .rep lo _ _ a => reSize a + lo + 2
  | .grp _ a => reSize a + 1
  | .eol => 1

/-- Fuel that comfortably dominates the backtracking recursion depth for
the patterns and inputs in this development. -/
def reFuel (r : RE) (s : List Char) : Nat :=
  (reSize r + 4) * (s.length + 4) + 4

/-- Source ``re.search` from a given scan position: try successive start positions
left to right; at the first position where the pattern matches, return
`(text before the match, captures, matched span, text after)`. -/
def reSearchGo (r : RE) : List Char → List Char →
    Option (List Char × Caps × List Char × List Char)
  | acc, [] =>
    match (mRE (reFuel r []) r []).head? with
    | some (caps, rest) => some (acc.reverse, caps, [], rest)
    | none => none
  | acc, c :: t =>
    match (mRE (reFuel r (c :: t)) r (c :: t)).head? with
    | some (caps, rest) =>
      some (acc.reverse, caps, (c :: t).take ((c :: t).length - rest.length), rest)
    | none => reSearchGo r (c :: acc) t

/-- Source ``re.search(pattern, s)` for an unanchored pattern. -/
def reSearch (r : RE) (s : List Char) :
    Option (List Char × Caps × List Char × List Char) :=
  reSearchGo r [] s

/-- Source ``re.search` for a pattern anchored at `^` (no `re.MULTILINE`): the
match may start only at position 0. -/
def reSearchAnchored (r : RE) (s : List Char) :
    Option (Caps × List Char × List Char) :=
  ((mRE (reFuel r s) r s).head?).map fun (caps, rest) =>
    (caps, s.take (s.length - rest.length), rest)

/-- Source ``re.sub(pattern, repl, s)` with a plain replacement string: repeatedly
replace the leftmost match and continue after it.  (Every pattern used in
this development matches at least one character; an empty match stops the
scan, see the guard.) -/
def reSubGo (r : RE) (repl : List Char) : Nat → List Char → List Char
  | 0, s => s
  | f + 1, s =>
    match reSearchGo r [] s with
    | none => s
    | some (pre, _, matched, post) =>
      if matched = [] then s
      else pre ++ repl ++ reSubGo r repl f post

def reSub (r : RE) (repl : List Char) (s : List Char) : List Char :=
  reSubGo r repl (s.length + 1) s

/-- Source ``re.finditer(pattern, s)`: captures of all non-overlapping matches,
left to right. -/
def reFindIterGo (r : RE) : Nat → List Char → List Caps
  | 0, _ => []
  | f + 1, s =>
    match reSearchGo r [] s with
    | none => []
    | some (_, caps, matched, post) =>
      if matched = [] then []
      else caps :: reFindIterGo r f post

def reFindIter (r : RE) (s : List Char) : List Caps :=
  reFindIterGo r (s.length + 1) s

/-! Convenience constructors used by the pattern transcriptions. -/

def reLit (s : String) : RE := .str s.data
def reChar (c : Char) : RE := .str [c]
def reWs1 : RE := .rep 1 none true (.cls .ws)       -- \s+
def reWs0 : RE := .rep 0 none true (.cls .ws)       -- \s*
def reWord1 : RE := .rep 1 none true (.cls .word)   -- \w+
def reDigits1 : RE := .rep 1 none true (.cls .digit) -- \d+
def reOpt (r : RE) : RE := .rep 0 (some 1) true r   -- r?
def reSeqL (rs : List RE) : RE :=
  match rs with
  | [] => .str []
  | [r] => r
  | r :: rest => .seq r (reSeqL rest)
def reAltL (rs : List RE) : RE :=
  match rs with
  | [] => .str []
  | [r] => r
  | r :: rest => .alt r (reAltL rest)

/-! ## `AgentService._sanitize_response`
(`phase4/backend/src/services/agent_service.py`, lines 110-136)

The seven `re.sub` passes, in source order. -/

-- r'<tool_call>.*?</tool_call>' with re.DOTALL
def sanPat1 : RE :=
  reSeqL [reLit "<tool_call>", .rep 0 none false (.cls .anyAll), reLit "</tool_call>"]

-- r'<function=\w+>.*?</function>' with re.DOTALL
def sanPat2 : RE :=
  reSeqL [reLit "<function=", reWord1, reLit ">",
          .rep 0 none false (.cls .anyAll), reLit "</function>"]

-- r'<parameter=\w+>.*?</parameter>' with re.DOTALL
def sanPat3 : RE :=
  reSeqL [reLit "<parameter=", reWord1, reLit ">",
          .rep 0 none false (.cls .anyAll), reLit "</parameter>"]

-- r'</?tool_call>'
def sanPat4 : RE :=
  reSeqL [reChar '<', reOpt (reChar '/'), reLit "tool_call>"]

-- r'</?function[^>]*>'
def sanPat5 : RE :=
  reSeqL [reChar '<', reOpt (reChar '/'), reLit "function",
          .rep 0 none true (.cls (.noneOf ['>'])), reChar '>']

-- r'</?parameter[^>]*>'
def sanPat6 : RE :=
  reSeqL [reChar '<', reOpt (reChar '/'), reLit "parameter",
          .rep 0 none true (.cls (.noneOf ['>'])), reChar '>']

-- r'\n\s*\n' replaced by '\n\n'
def sanPatBlank : RE := reSeqL [reChar '\n', reWs0, reChar '\n']

/-- The whitespace-normalisation tail of `_sanitize_response`: collapse
blank-line whitespace runs to a single blank line, then `str.strip()`. -/
def whitespaceNormalize (s : String) : String :=
  ⟨listStrip (reSub sanPatBlank "\n\n".data s.data)⟩

/-- Source ``AgentService._sanitize_response`. -/
def sanitize_response (content : String) : String :=
  if content = "" then ""
  else
    let c1 := reSub sanPat1 [] content.data
    let c2 := reSub sanPat2 [] c1
    let c3 := reSub sanPat3 [] c2
    let c4 := reSub sanPat4 [] c3
    let c5 := reSub sanPat5 [] c4
    let c6 := reSub sanPat6 [] c5
    let c7 := reSub sanPatBlank "\n\n".data c6
    ⟨listStrip c7⟩

/-- The pseudo-call markup tokens named by the specification. -/
def markupTokens : List String :=
  ["<tool_call>", "</tool_call>", "<function=", "</function>",
   "<parameter=", "</parameter>"]

/-- The text contains at least one of the markup tokens. -/
def containsAnyMarkup (s : String) : Bool :=
  markupTokens.any (fun tok => pyIn tok s)

/-! ## Dates (`datetime`, `timedelta(days=...)`)

`datetime` is modelled by its year/month/day/hour/minute fields (seconds
and microseconds play no role in the embedded code).  Day arithmetic goes
through the proleptic-Gregorian day number (days since 1970-01-01), using
floor division. -/

structure PyDateTime where
  year : Int
  month : Int
  day : Int
  hour : Int
  minute : Int
deriving DecidableEq, Repr

def isLeapYear (y : Int) : Bool :=
  (y % 4 = 0 && y % 100 ≠ 0) || y % 400 = 0

/-- Source ``calendar.monthrange(y, m)[1]`: number of days of month `m` of year `y`. -/
def daysInMonth (y m : Int) : Int :=
  if m = 2 then (if isLeapYear y then 29 else 28)
  else if m = 4 ∨ m = 6 ∨ m = 9 ∨ m = 11 then 30
  else 31

/-- Source ``datetime(year, month, day)` succeeds (no `ValueError`):
`datetime.MINYEAR = 1`, `datetime.MAXYEAR = 9999`. -/
def isValidDate (y m d : Int) : Bool :=
  1 ≤ y && y ≤ 9999 && 1 ≤ m && m ≤ 12 && 1 ≤ d && d ≤ daysInMonth y m

/-- Days since 1970-01-01 of a calendar date (Howard Hinnant's
`days_from_civil`, with floor division). -/
def daysFromCivil (y m d : Int) : Int :=
  let y' := if m ≤ 2 then y - 1 else y
  let era := Int.fdiv y' 400
  let yoe := y' - era * 400
  let mp := if m > 2 then m - 3 else m + 9
  let doy := Int.fdiv (153 * mp + 2) 5 + d - 1
  let doe := yoe * 365 + Int.fdiv yoe 4 - Int.fdiv yoe 100 + doy
  era * 146097 + doe - 719468

/-- Calendar date of a day number (Hinnant's `civil_from_days`). -/
def civilFromDays (z0 : Int) : Int × Int × Int :=
  let z := z0 + 719468
  let era := Int.fdiv z 146097
  let doe := z - era * 146097
  let yoe := Int.fdiv (doe - Int.fdiv doe 1460 + Int.fdiv doe 36524 - Int.fdiv doe 146096) 365
  let y := yoe + era * 400
  let doy := doe - (365 * yoe + Int.fdiv yoe 4 - Int.fdiv yoe 100)
  let mp := Int.fdiv (5 * doy + 2) 153
  let d := doy - Int.fdiv (153 * mp + 2) 5 + 1
  let m := if mp < 10 then mp + 3 else mp - 9
  (if m ≤ 2 then y + 1 else y, m, d)

/-- Source ``dt + timedelta(days=n)` (keeps the time of day).  Python raises
`OverflowError` outside years 1..9999; that bound is not modelled. -/
def addDays (dt : PyDateTime) (n : Int) : PyDateTime :=
  let (y, m, d) := civilFromDays (daysFromCivil dt.year dt.month dt.day + n)
  { dt with year := y, month := m, day := d }

/-- Source ``datetime.weekday()`: Monday = 0 .. Sunday = 6
(1970-01-01 was a Thursday). -/
def pyWeekday (dt : PyDateTime) : Int :=
  Int.emod (daysFromCivil dt.year dt.month dt.day + 3) 7

/-! ## `phase3/backend/src/utils/date_parser.py` -/

/-- Source ``DAY_NAMES` (dict, in insertion order). -/
def DAY_NAMES : List (String × Int) :=
  [("monday", 0), ("mon", 0),
   ("tuesday", 1), ("tue", 1), ("tues", 1),
   ("wednesday", 2), ("wed", 2),
   ("thursday", 3), ("thu", 3), ("thur", 3), ("thurs", 3),
   ("friday", 4), ("fri", 4),
   ("saturday", 5), ("sat", 5),
   ("sunday", 6), ("sun", 6),
   ("peer", 0), ("pir", 0), ("somwar", 0),
   ("mangal", 1),
   ("budh", 2),
   ("jumerat", 3), ("jumeraat", 3),
   ("juma", 4), ("jumma", 4),
   ("hafta", 5), ("saneechar", 5), ("sanichar", 5),
   ("itwar", 6), ("itwaar", 6)]

/-- Source ``RELATIVE_DATES` (dict, in insertion order). -/
def RELATIVE_DATES : List (String × Int) :=
  [("today", 0), ("tod", 0),
   ("tomorrow", 1), ("tmrw", 1), ("tmr", 1), ("tom", 1),
   ("day after tomorrow", 2),
   ("yesterday", -1),
   ("aaj", 0), ("aj", 0),
   ("kal", 1),
   ("parson", 2), ("parso", 2),
   ("agla din", 1),
   ("آج", 0),
   ("کل", 1),
   ("پرسوں", 2)]

/-- Source ``WEEK_EXPRESSIONS` (dict, in insertion order).  The `none` values are
Python `None`; reaching one of them in the scan loop would raise
`TypeError` (`timedelta(days=None)`), but those keys are intercepted by
the earlier end-of-week / end-of-month / next-quarter branches, so the
loop can only ever fire on a `some` value. -/
def WEEK_EXPRESSIONS : List (String × Option Int) :=
  [("next week", some 7),
   ("this week", some 0),
   ("in a week", some 7),
   ("in 2 weeks", some 14),
   ("in two weeks", some 14),
   ("end of week", none),
   ("end of month", none),
   ("next quarter", none),
   ("aglay hafta", some 7), ("aglay hafte", some 7), ("agli week", some 7),
   ("is hafta", some 0), ("is hafte", some 0),
   ("اگلے ہفتے", some 7),
   ("اس ہفتے", some 0)]

/-- Source ``TIME_OF_DAY` (dict, in insertion order). -/
def TIME_OF_DAY : List (String × (Nat × Nat)) :=
  [("morning", (9, 0)),
   ("afternoon", (14, 0)),
   ("evening", (18, 0)),
   ("night", (21, 0)),
   ("noon", (12, 0)),
   ("midnight", (0, 0)),
   ("subah", (9, 0)),
   ("dopehar", (14, 0)),
   ("shaam", (18, 0)),
   ("raat", (21, 0))]

/-- Source ``DateParseResult` (confidence is a Python float literal, modelled as ℚ). -/
structure DateParseResult where
  date : Option PyDateTime
  original_text : String
  confidence : ℚ
deriving DecidableEq, Repr

/-- Source ``_get_next_weekday`. -/
def get_next_weekday (target : Int) (from_date : PyDateTime) : PyDateTime :=
  let days_ahead := target - pyWeekday from_date
  let days_ahead := if days_ahead ≤ 0 then days_ahead + 7 else days_ahead
  addDays from_date days_ahead

/-- Source ``re.search(rf"\b{re.escape(day_name)}\b", text)`: an occurrence of the
(alphanumeric) name bounded by non-word characters or the ends of the
string.  `prev` is the character just before the current scan position. -/
def wordBoundedGo (pat : List Char) : Option Char → List Char → Bool
  | prev, s =>
    (pat.isPrefixOf s
      && (match prev with | none => true | some c => ¬ pyIsWord c)
      && (match (s.drop pat.length).head? with
          | none => true
          | some c => ¬ pyIsWord c)) ||
    match s with
    | [] => false
    | c :: t => wordBoundedGo pat (some c) t

def wordBounded (s pat : String) : Bool :=
  wordBoundedGo pat.data none s.data

/-! Patterns of `parse_natural_date`. -/

-- next_patterns: r"next\s+(\w+)", r"agla\s+(\w+)", r"agli\s+(\w+)", r"agle\s+(\w+)"
def nextDayPats : List RE :=
  [reSeqL [reLit "next", reWs1, .grp 1 reWord1],
   reSeqL [reLit "agla", reWs1, .grp 1 reWord1],
   reSeqL [reLit "agli", reWs1, .grp 1 reWord1],
   reSeqL [reLit "agle", reWs1, .grp 1 reWord1]]

-- this_patterns: r"this\s+(\w+)", r"is\s+(\w+)", r"ye\s+(\w+)"
def thisDayPats : List RE :=
  [reSeqL [reLit "this", reWs1, .grp 1 reWord1],
   reSeqL [reLit "is", reWs1, .grp 1 reWord1],
   reSeqL [reLit "ye", reWs1, .grp 1 reWord1]]

-- in_days_patterns:
--   r"in\s+(\d+)\s*days?"
--   r"(\d+)\s*days?\s+(?:from now|later)"
--   r"(\d+)\s*din\s*(?:baad|mein)?"
--   r"(\d+)\s*دن"
def inDaysPats : List RE :=
  [reSeqL [reLit "in", reWs1, .grp 1 reDigits1, reWs0, reLit "day", reOpt (reChar 's')],
   reSeqL [.grp 1 reDigits1, reWs0, reLit "day", reOpt (reChar 's'), reWs1,
           .alt (reLit "from now") (reLit "later")],
   reSeqL [.grp 1 reDigits1, reWs0, reLit "din", reWs0,
           reOpt (.alt (reLit "baad") (reLit "mein"))],
   reSeqL [.grp 1 reDigits1, reWs0, reLit "دن"]]

-- iso_pattern: r"(\d{4})-(\d{1,2})-(\d{1,2})"
def isoPat : RE :=
  reSeqL [.grp 1 (.rep 4 (some 4) true (.cls .digit)), reChar '-',
          .grp 2 (.rep 1 (some 2) true (.cls .digit)), reChar '-',
          .grp 3 (.rep 1 (some 2) true (.cls .digit))]

-- date_pattern: r"(\d{1,2})[/\-](\d{1,2})(?:[/\-](\d{2,4}))?"
def slashPat : RE :=
  reSeqL [.grp 1 (.rep 1 (some 2) true (.cls .digit)), .cls (.oneOf ['/', '-']),
          .grp 2 (.rep 1 (some 2) true (.cls .digit)),
          reOpt (.seq (.cls (.oneOf ['/', '-']))
                      (.grp 3 (.rep 2 (some 4) true (.cls .digit))))]

/-- Source ``day_name in DAY_NAMES` / `DAY_NAMES[day_name]`. -/
def lookupDayName (s : String) : Option Int :=
  (DAY_NAMES.find? (·.1 = s)).map (·.2)

/-! The ordered branches of `parse_natural_date`, each as one stage
returning `some result` where the Python code returns, `none` where it
falls through to the next branch.  Every stage recomputes
`text_lower = text.lower().strip()` (computed once in Python). -/

def textLowerOf (text : String) : String := pyStrip (pyLower text)

-- if "end of week" in text_lower: ... confidence=0.9
def stage_end_of_week (text : String) (ref : PyDateTime) : Option DateParseResult :=
  if pyIn "end of week" (textLowerOf text) then
    let days_until_sunday := 6 - pyWeekday ref
    let days_until_sunday := if days_until_sunday < 0 then 0 else days_until_sunday
    let rd := addDays ref days_until_sunday
    some ⟨some { rd with hour := 23, minute := 59 }, text, 0.9⟩
  else none

-- if "end of month" in text_lower: ... confidence=0.9
def stage_end_of_month (text : String) (ref : PyDateTime) : Option DateParseResult :=
  if pyIn "end of month" (textLowerOf text) then
    let last_day := daysInMonth ref.year ref.month
    some ⟨some { ref with day := last_day, hour := 23, minute := 59 }, text, 0.9⟩
  else none

-- if "next quarter" in text_lower: ... confidence=0.85
def stage_next_quarter (text : String) (ref : PyDateTime) : Option DateParseResult :=
  if pyIn "next quarter" (textLowerOf text) then
    let current_quarter := Int.fdiv (ref.month - 1) 3
    let next_quarter_month := (Int.emod (current_quarter + 1) 4) * 3 + 1
    let next_quarter_year :=
      if next_quarter_month > ref.month then ref.year else ref.year + 1
    some ⟨some ⟨next_quarter_year, next_quarter_month, 1, 0, 0⟩, text, 0.85⟩
  else none

-- for pattern, days in RELATIVE_DATES.items(): ... confidence=0.95
def stage_relative (text : String) (ref : PyDateTime) : Option DateParseResult :=
  RELATIVE_DATES.findSome? fun (k, d) =>
    if pyIn k (textLowerOf text) then some ⟨some (addDays ref d), text, 0.95⟩
    else none

-- for pattern, days in WEEK_EXPRESSIONS.items(): ... confidence=0.9
def stage_week (text : String) (ref : PyDateTime) : Option DateParseResult :=
  WEEK_EXPRESSIONS.findSome? fun (k, v) =>
    if pyIn k (textLowerOf text) then
      v.map fun d => ⟨some (addDays ref d), text, 0.9⟩
    else none

-- "next <day>" loop: match, then `if day_name in DAY_NAMES`, confidence=0.9
def stage_next_day (text : String) (ref : PyDateTime) : Option DateParseResult :=
  nextDayPats.findSome? fun p =>
    (reSearch p (textLowerOf text).data).bind fun (_, caps, _, _) =>
      (getCap caps 1).bind fun g1 =>
        (lookupDayName ⟨g1⟩).map fun wd =>
          ⟨some (get_next_weekday wd ref), text, 0.9⟩

-- "this <day>" loop: days_diff clamped at 0, confidence=0.85
def stage_this_day (text : String) (ref : PyDateTime) : Option DateParseResult :=
  thisDayPats.findSome? fun p =>
    (reSearch p (textLowerOf text).data).bind fun (_, caps, _, _) =>
      (getCap caps 1).bind fun g1 =>
        (lookupDayName ⟨g1⟩).map fun wd =>
          let days_diff := wd - pyWeekday ref
          let days_diff := if days_diff < 0 then 0 else days_diff
          ⟨some (addDays ref days_diff), text, 0.85⟩

-- "in X days" loop, confidence=0.9
def stage_in_days (text : String) (ref : PyDateTime) : Option DateParseResult :=
  inDaysPats.findSome? fun p =>
    (reSearch p (textLowerOf text).data).bind fun (_, caps, _, _) =>
      (getCap caps 1).map fun g1 =>
        ⟨some (addDays ref (digitsToNat g1 : Int)), text, 0.9⟩

-- standalone day names: re.search(rf"\b{day_name}\b"), confidence=0.7
def stage_day_names (text : String) (ref : PyDateTime) : Option DateParseResult :=
  DAY_NAMES.findSome? fun (nm, wd) =>
    if wordBounded (textLowerOf text) nm then
      some ⟨some (get_next_weekday wd ref), text, 0.7⟩
    else none

-- ISO date (searched in the ORIGINAL text), confidence=1.0;
-- an invalid date (ValueError) falls through
def stage_iso (text : String) : Option DateParseResult :=
  (reSearch isoPat text.data).bind fun (_, caps, _, _) =>
    (getCap caps 1).bind fun g1 =>
      (getCap caps 2).bind fun g2 =>
        (getCap caps 3).bind fun g3 =>
          let y : Int := digitsToNat g1
          let m : Int := digitsToNat g2
          let d : Int := digitsToNat g3
          if isValidDate y m d then some ⟨some ⟨y, m, d, 0, 0⟩, text, 1⟩
          else none

-- MM/DD or DD/MM (searched in the ORIGINAL text), confidence=0.8;
-- an invalid date (ValueError) falls through
def stage_slash (text : String) (ref : PyDateTime) : Option DateParseResult :=
  (reSearch slashPat text.data).bind fun (_, caps, _, _) =>
    (getCap caps 1).bind fun g1 =>
      (getCap caps 2).bind fun g2 =>
        let num1 : Int := digitsToNat g1
        let num2 : Int := digitsToNat g2
        let year0 : Int :=
          match getCap caps 3 with
          | some g3 => digitsToNat g3
          | none => ref.year
        let year := if year0 < 100 then year0 + 2000 else year0
        let (m, d) := if num1 ≤ 12 then (num1, num2) else (num2, num1)
        if isValidDate year m d then some ⟨some ⟨year, m, d, 0, 0⟩, text, 0.8⟩
        else none

/-- Source ``parse_natural_date(text, reference_date)`.  (The Python default
`reference_date = now()` is not modelled; the reference date is always
passed explicitly.) -/
def parse_natural_date (text : String) (reference_date : PyDateTime) : DateParseResult :=
  ((stage_end_of_week text reference_date).orElse fun _ =>
   (stage_end_of_month text reference_date).orElse fun _ =>
   (stage_next_quarter text reference_date).orElse fun _ =>
   (stage_relative text reference_date).orElse fun _ =>
   (stage_week text reference_date).orElse fun _ =>
   (stage_next_day text reference_date).orElse fun _ =>
   (stage_this_day text reference_date).orElse fun _ =>
   (stage_in_days text reference_date).orElse fun _ =>
   (stage_day_names text reference_date).orElse fun _ =>
   (stage_iso text).orElse fun _ =>
   stage_slash text reference_date).getD ⟨none, text, 0⟩

/-! ## `parse_time_from_text` and `parse_date_and_time` -/

-- r"(\d{1,2}):?(\d{2})?\s*(am|pm|a\.m\.|p\.m\.)"
def timePat1 : RE :=
  reSeqL [.grp 1 (.rep 1 (some 2) true (.cls .digit)),
          reOpt (reChar ':'),
          reOpt (.grp 2 (.rep 2 (some 2) true (.cls .digit))),
          reWs0,
          .grp 3 (reAltL [reLit "am", reLit "pm", reLit "a.m.", reLit "p.m."])]

-- r"(\d{1,2}):(\d{2})"
def timePat2 : RE :=
  reSeqL [.grp 1 (.rep 1 (some 2) true (.cls .digit)), reChar ':',
          .grp 2 (.rep 2 (some 2) true (.cls .digit))]

-- r"(\d{1,2})\s*(am|pm|a\.m\.|p\.m\.)"
def timePat3 : RE :=
  reSeqL [.grp 1 (.rep 1 (some 2) true (.cls .digit)), reWs0,
          .grp 2 (reAltL [reLit "am", reLit "pm", reLit "a.m.", reLit "p.m."])]

/-- Twelve-hour to 24-hour adjustment shared by the branches of
`parse_time_from_text`. -/
def adjust12h (hour : Nat) (is_pm : Bool) : Nat :=
  if is_pm && hour ≠ 12 then hour + 12
  else if !is_pm && hour = 12 then 0
  else hour

/-- Source ``parse_time_from_text(text)`: named time-of-day expressions scanned
first (in `TIME_OF_DAY` insertion order, by substring containment), then
the three explicit time patterns. -/
def parse_time_from_text (text : String) : Option (Nat × Nat) :=
  let tl := pyStrip (pyLower text)
  match TIME_OF_DAY.findSome? (fun (k, hm) => if pyIn k tl then some hm else none) with
  | some hm => some hm
  | none =>
    match reSearch timePat1 tl.data with
    | some (_, caps, _, _) =>
      -- len(groups)==3: 12-hour format with optional minutes
      let hour := digitsToNat ((getCap caps 1).getD [])
      let minute := match getCap caps 2 with | some g => digitsToNat g | none => 0
      let is_pm := ((getCap caps 3).getD []).contains 'p'
      some (adjust12h hour is_pm, minute)
    | none =>
      match reSearch timePat2 tl.data with
      | some (_, caps, _, _) =>
        -- groups[1].isdigit(): 24-hour format
        some (digitsToNat ((getCap caps 1).getD []),
              digitsToNat ((getCap caps 2).getD []))
      | none =>
        match reSearch timePat3 tl.data with
        | some (_, caps, _, _) =>
          -- hour with am/pm, minute 0
          let hour := digitsToNat ((getCap caps 1).getD [])
          let is_pm := ((getCap caps 2).getD []).contains 'p'
          some (adjust12h hour is_pm, 0)
        | none => none

/-- Source ``parse_date_and_time(text, reference_date)`.  Returns `none` exactly
where the Python function would raise `ValueError` from
`date.replace(hour=..., minute=...)` with an out-of-range parsed time
(e.g. a 24-hour match like "45:30"); otherwise `some` of the returned
`DateParseResult`. -/
def parse_date_and_time (text : String) (reference_date : PyDateTime) :
    Option DateParseResult :=
  let date_result := parse_natural_date text { reference_date with hour := 0, minute := 0 }
  match date_result.date with
  | none => some date_result
  | some d =>
    match parse_time_from_text text with
    | some (h, m) =>
      if h ≤ 23 && m ≤ 59 then
        some ⟨some { d with hour := (h : Int), minute := (m : Int) },
              date_result.original_text,
              min (date_result.confidence + 0.05) 1⟩
      else none
    | none => some date_result

/-! ## `phase4/backend/src/services/suggestions.py`

`HIGH_PRIORITY_KEYWORDS`, `LOW_PRIORITY_KEYWORDS` and
`TIME_SENSITIVE_KEYWORDS` are Python `set` literals; they are modelled as
lists in source order.  (Python set iteration order is unspecified; the
properties proved below do not depend on which member of a set matches
first, only on whether some member matches.) -/

def HIGH_PRIORITY_KEYWORDS : List String :=
  ["urgent", "asap", "emergency", "critical", "important",
   "deadline", "due soon", "overdue", "immediately",
   "must", "need to", "have to", "crucial", "vital",
   "priority", "high priority",
   "zaroori", "zaruri", "fori", "jaldi", "abhi",
   "lazmi", "ahem", "zaroor",
   "ضروری", "فوری", "جلدی", "ابھی"]

def LOW_PRIORITY_KEYWORDS : List String :=
  ["whenever", "someday", "eventually", "if possible",
   "when free", "no rush", "later", "maybe",
   "optional", "nice to have",
   "jab bhi", "kabi bhi", "baad mein", "phir kabhi",
   "جب بھی", "بعد میں"]

def TIME_SENSITIVE_KEYWORDS : List String :=
  ["today", "tonight", "this morning", "this afternoon",
   "tomorrow", "next week", "by monday", "by friday",
   "end of day", "eod", "end of week", "eow",
   "aaj", "kal", "آج", "کل"]

/-- Source ``TaskSuggestion` for priority suggestions.  `suggested_priority` and
`trigger` are the entries of the Python `data` dict. -/
structure TaskSuggestion where
  suggestion_type : String
  message : String
  confidence : ℚ
  suggested_priority : String
  trigger : Option String
deriving DecidableEq, Repr

/-- Source ``SuggestionService.suggest_priority(task_title, task_description)`. -/
def suggest_priority (task_title : String) (task_description : Option String) :
    TaskSuggestion :=
  let text := pyLower (task_title ++ " " ++ task_description.getD "")
  match HIGH_PRIORITY_KEYWORDS.find? (fun k => pyIn k text) with
  | some keyword =>
    ⟨"priority",
     "This task seems urgent based on \x27" ++ keyword ++ "\x27. Suggesting high priority.",
     0.85, "high", some keyword⟩
  | none =>
    match LOW_PRIORITY_KEYWORDS.find? (fun k => pyIn k text) with
    | some keyword =>
      ⟨"priority",
       "This task seems flexible based on \x27" ++ keyword ++ "\x27. Suggesting low priority.",
       0.75, "low", some keyword⟩
    | none =>
      match TIME_SENSITIVE_KEYWORDS.find? (fun k => pyIn k text) with
      | some keyword =>
        ⟨"priority",
         "This task has a time element. Suggesting medium to high priority.",
         0.7, "medium", some keyword⟩
      | none =>
        ⟨"priority",
         "No specific urgency indicators found. Defaulting to medium priority.",
         0.5, "medium", none⟩

/-! `SuggestionService.estimate_time`.  Tasks are modelled with their
title, completion flag and creation/completion timestamps in fractional
hours (the Python code carries ISO-8601 strings or datetimes and divides
the difference in seconds by 3600; the timestamp representation does not
affect the computed durations' role below). -/

structure CompletedTask where
  title : String
  completed : Bool
  created_at : Option ℚ   -- hours
  completed_at : Option ℚ -- hours
  updated_at : Option ℚ   -- hours
deriving DecidableEq, Repr

/-- Source ``TASK_CATEGORIES` (dict, insertion order): category, keywords, avg hours. -/
def TASK_CATEGORIES : List (String × List String × ℚ) :=
  [("meeting", ["meeting", "call", "sync", "standup"], 1.0),
   ("coding", ["implement", "code", "develop", "fix bug", "build"], 3.0),
   ("review", ["review", "check", "approve", "feedback"], 0.5),
   ("writing", ["write", "document", "draft", "report"], 2.0),
   ("research", ["research", "explore", "investigate", "analyze"], 2.5),
   ("admin", ["email", "invoice", "paperwork", "update"], 0.5),
   ("errands", ["buy", "pick up", "grocery", "shopping"], 1.0),
   ("exercise", ["gym", "workout", "run", "exercise", "yoga"], 1.0),
   ("learning", ["study", "course", "learn", "read", "tutorial"], 1.5)]

/-- Jaccard similarity of the word sets of two lowercased titles
(`len(a & b) / len(a | b)`, `0` on empty union). -/
def jaccard (a b : String) : ℚ :=
  let wa := nubStr (pySplitWs a)
  let wb := nubStr (pySplitWs b)
  let inter := (wa.filter (fun w => wb.contains w)).length
  let union := (nubStr (wa ++ wb)).length
  if union > 0 then (inter : ℚ) / (union : ℚ) else 0

/-- The result record of `estimate_time` (suggestion type, confidence and
the `data` entries; the display message string is not modelled). -/
structure TimeEstimateSuggestion where
  suggestion_type : String
  confidence : ℚ
  estimated_hours : Option ℚ
  based_on_count : Nat
  category : String
deriving DecidableEq, Repr

/-- Durations (with similarity weights) of similar completed tasks:
the `similar_durations` accumulation loop of `estimate_time`. -/
def similarDurations (title_lower : String) (completed_tasks : List CompletedTask) :
    List (ℚ × ℚ) :=
  completed_tasks.foldl (fun acc task =>
    if !task.completed then acc
    else
      let sim := jaccard title_lower (pyLower task.title)
      if sim ≥ 0.25 then
        match task.created_at, (task.completed_at).orElse (fun _ => task.updated_at) with
        | some created, some completed_at =>
          let duration := completed_at - created
          if 0.08 ≤ duration ∧ duration ≤ 24 then acc ++ [(duration, sim)] else acc
        | _, _ => acc
      else acc) []

/-- Source ``SuggestionService.estimate_time(task_title, completed_tasks)`. -/
def estimate_time (task_title : String) (completed_tasks : List CompletedTask) :
    TimeEstimateSuggestion :=
  let title_lower := pyLower task_title
  let matched_category :=
    TASK_CATEGORIES.find? fun (_, keywords, _) =>
      keywords.any (fun k => pyIn k title_lower)
  let sd := similarDurations title_lower completed_tasks
  if sd ≠ [] then
    let total_weight := (sd.map (·.2)).sum
    let weighted_avg := (sd.map (fun (dur, sim) => dur * sim)).sum / total_weight
    let count := sd.length
    ⟨"time_estimate", min 0.9 (0.5 + (count : ℚ) * 0.1),
     some weighted_avg, count,
     match matched_category with | some (c, _, _) => c | none => "general"⟩
  else
    match matched_category with
    | some (category, _, avg_hours) =>
      ⟨"time_estimate", 0.6, some avg_hours, 0, category⟩
    | none =>
      ⟨"time_estimate", 0.0, none, 0, "unknown"⟩

/-! The remaining suggestion-engine functions.  Human-readable `message`
strings and display formatting (`strftime`, `round(...)` applied to the
`data` copies of numbers) are not modelled; branch structure, counts and
confidence values are.  Threshold comparisons on ratios
(`similarity >= 0.3`, `percentage >= 60`) use exact rationals where
Python uses floats. -/

/-- Python `datetime` comparison key: datetimes compare lexicographically
by field, equivalently by minutes since the epoch (seconds and
microseconds play no role here). -/
def dtKey (dt : PyDateTime) : Int :=
  daysFromCivil dt.year dt.month dt.day * 1440 + dt.hour * 60 + dt.minute

def dtLt (a b : PyDateTime) : Bool := dtKey a < dtKey b

def dtLe (a b : PyDateTime) : Bool := dtKey a ≤ dtKey b

/-- A task dict as consumed by the task-list suggestion functions.  The
optional datetime-string fields are modelled as: `none` = field absent or
`None`; `some none` = present but `datetime.fromisoformat` raises (the
code's `try/except` then skips the task); `some (some d)` = parses to
`d` (timezone dropped, as in the code's `replace(tzinfo=None)`). -/
structure TaskRow where
  title : String
  completed : Bool
  due_date : Option (Option PyDateTime)
  priority : Option String
  completed_at : Option (Option PyDateTime)
  updated_at : Option (Option PyDateTime)
deriving BEq, DecidableEq, Repr

/-- Result of `suggest_tags_from_history` (type, confidence, the
`suggested_tags` data entry and the `is_fallback` flag). -/
structure TagSuggestion where
  suggestion_type : String
  confidence : ℚ
  suggested_tags : List String
  is_fallback : Bool
deriving DecidableEq, Repr

/-- Stable descending insertion by count: later elements with an equal
count stay after earlier ones, matching `Counter.most_common`. -/
def insertByCountDesc (x : String × Nat) : List (String × Nat) → List (String × Nat)
  | [] => [x]
  | y :: t => if x.2 ≤ y.2 then y :: insertByCountDesc x t else x :: y :: t

/-- `Counter(l).most_common(n)`: distinct elements with their counts, in
descending count order, ties in first-occurrence order. -/
def mostCommon (l : List String) (n : Nat) : List (String × Nat) :=
  ((((nubStr l).map fun t => (t, l.count t)).foldl
      (fun acc x => insertByCountDesc x acc) []).take n)

/-- `SuggestionService.suggest_tags_from_history(task_title,
user_tags_history)`. -/
def suggest_tags_from_history (task_title : String)
    (user_tags_history : List String) : TagSuggestion :=
  if user_tags_history.isEmpty then ⟨"tag", 0.0, [], false⟩
  else
    let most_common := mostCommon user_tags_history 5
    let title_lower := pyLower task_title
    let suggested_tags := (most_common.filter fun tc =>
      pyIn (pyLower tc.1) title_lower ||
        (pySplitWs title_lower).any fun word => pyIn word (pyLower tc.1)).map (·.1)
    if !suggested_tags.isEmpty then ⟨"tag", 0.7, suggested_tags, false⟩
    else ⟨"tag", 0.5, (most_common.take 3).map (·.1), true⟩

/-- Result of `suggest_focus_tasks` (type, confidence, the data counts
and the focus list; the all-clear branch carries no counts, recorded
as zeros here). -/
structure FocusSuggestion where
  suggestion_type : String
  confidence : ℚ
  focus_tasks : List TaskRow
  overdue_count : Nat
  due_today_count : Nat
  high_priority_count : Nat
deriving BEq, Repr

/-- `SuggestionService.suggest_focus_tasks(tasks)`.  `today` stands for
the code's `datetime.now()` truncated to midnight. -/
def suggest_focus_tasks (tasks : List TaskRow) (today : PyDateTime) :
    FocusSuggestion :=
  let tomorrow := addDays today 1
  let pending := tasks.filter fun t => !t.completed
  let overdue_tasks := pending.filter fun t =>
    match t.due_date with
    | some (some d) => dtLt d today
    | _ => false
  let due_today := pending.filter fun t =>
    match t.due_date with
    | some (some d) => !dtLt d today && dtLt d tomorrow
    | _ => false
  let high_priority := pending.filter fun t => t.priority.getD "medium" = "high"
  let f1 := overdue_tasks.take 2
  let f2 := f1 ++ (due_today.filter fun t => !f1.contains t).take 2
  let focus_tasks := f2 ++ (high_priority.filter fun t => !f2.contains t).take 2
  if focus_tasks.isEmpty then
    ⟨"focus", 0.5, [], 0, 0, 0⟩
  else
    ⟨"focus", 0.85, focus_tasks.take 5,
     overdue_tasks.length, due_today.length, high_priority.length⟩

/-- Result of `suggest_similar_tasks` (type, confidence, similar tasks). -/
structure SimilarSuggestion where
  suggestion_type : String
  confidence : ℚ
  similar_tasks : List TaskRow
deriving BEq, Repr

/-- Stable descending insertion by similarity, matching Python's stable
`list.sort(key=..., reverse=True)`. -/
def insertBySimDesc (x : TaskRow × ℚ) : List (TaskRow × ℚ) → List (TaskRow × ℚ)
  | [] => [x]
  | y :: t => if x.2 ≤ y.2 then y :: insertBySimDesc x t else x :: y :: t

/-- `SuggestionService.suggest_similar_tasks(new_task_title,
existing_tasks, max_suggestions)` (Python default `max_suggestions=3`). -/
def suggest_similar_tasks (new_task_title : String)
    (existing_tasks : List TaskRow) (max_suggestions : Nat) : SimilarSuggestion :=
  let similar := existing_tasks.foldl (fun acc task =>
    if task.completed then acc
    else
      let similarity := jaccard (pyLower new_task_title) (pyLower task.title)
      if similarity ≥ 0.3 then acc ++ [(task, similarity)] else acc) []
  let sorted := similar.foldl (fun acc x => insertBySimDesc x acc) []
  let top_similar := (sorted.take max_suggestions).map (·.1)
  if top_similar.isEmpty then ⟨"similar", 0.5, []⟩
  else ⟨"similar", 0.75, top_similar⟩

/-- Pending tasks due on the given day (the day-window filter shared by
`detect_scheduling_conflicts` and `_suggest_alternative_dates`). -/
def tasksOnDay (existing_tasks : List TaskRow) (day : PyDateTime) : List TaskRow :=
  let next_day := addDays day 1
  existing_tasks.filter fun t =>
    !t.completed &&
      (match t.due_date with
       | some (some d) => dtLe day d && dtLt d next_day
       | _ => false)

/-- `SuggestionService._suggest_alternative_dates(target_date,
existing_tasks, days_to_check)`: the first up to three of the next
`days_to_check` days with fewer than 4 pending tasks (returned as dates;
Python formats them for display). -/
def suggest_alternative_dates (target_date : PyDateTime)
    (existing_tasks : List TaskRow) (days_to_check : Nat) : List PyDateTime :=
  (List.range days_to_check).foldl (fun acc i =>
    if acc.length ≥ 3 then acc
    else
      let check_date := addDays target_date ((i : Int) + 1)
      if (tasksOnDay existing_tasks check_date).length < 4 then acc ++ [check_date]
      else acc) []

/-- Result of `detect_scheduling_conflicts` (type, confidence, the data
counts, whether a conflict was reported, and the alternative dates). -/
structure ConflictSuggestion where
  suggestion_type : String
  confidence : ℚ
  existing_task_count : Nat
  high_priority_count : Nat
  estimated_hours : ℚ
  conflict : Bool
  alternative_dates : List PyDateTime
deriving DecidableEq, Repr

/-- `SuggestionService.detect_scheduling_conflicts(new_task_due_date,
existing_tasks, max_daily_hours)` (Python default `max_daily_hours=8.0`). -/
def detect_scheduling_conflicts (new_task_due_date : PyDateTime)
    (existing_tasks : List TaskRow) (max_daily_hours : ℚ) : ConflictSuggestion :=
  let target_date := { new_task_due_date with hour := 0, minute := 0 }
  let same_day_tasks := tasksOnDay existing_tasks target_date
  let high_priority_count :=
    (same_day_tasks.filter fun t => t.priority = some "high").length
  let task_count := same_day_tasks.length
  let estimated_hours : ℚ := (task_count : ℚ) * 1.5
  if task_count ≥ 6 ∨ high_priority_count ≥ 3 ∨ estimated_hours > max_daily_hours then
    ⟨"conflict", 0.85, task_count, high_priority_count, estimated_hours, true,
     suggest_alternative_dates target_date existing_tasks 7⟩
  else
    ⟨"conflict", 0.9, task_count, high_priority_count, estimated_hours, false, []⟩

/-- One entry of `analyze_workload`'s `overloaded_days` data. -/
structure OverloadedDay where
  date : PyDateTime
  task_count : Nat
  high_priority_count : Nat
deriving BEq, DecidableEq, Repr

/-- The `tasks_by_date` grouping of `analyze_workload`: pending tasks
due within the window, grouped by calendar day (`strftime("%Y-%m-%d")`
keys, modelled as midnight datetimes), keys in first-occurrence order. -/
def groupByDueDate (tasks : List TaskRow) (today : PyDateTime)
    (days_ahead : Nat) : List (PyDateTime × List TaskRow) :=
  tasks.foldl (fun acc t =>
    if t.completed then acc
    else
      match t.due_date with
      | some (some d) =>
        if dtLe today d && dtLe d (addDays today (days_ahead : Int)) then
          let key := { d with hour := 0, minute := 0 }
          if acc.any (·.1 = key) then
            acc.map fun kv => if kv.1 = key then (kv.1, kv.2 ++ [t]) else kv
          else acc ++ [(key, [t])]
        else acc
      | _ => acc) []

/-- Stable descending insertion by task count (Python's stable
`list.sort(key=..., reverse=True)` over the overloaded days). -/
def insertByTaskCountDesc (x : OverloadedDay) :
    List OverloadedDay → List OverloadedDay
  | [] => [x]
  | y :: t =>
    if x.task_count ≤ y.task_count then y :: insertByTaskCountDesc x t
    else x :: y :: t

/-- Result of `analyze_workload` (type, confidence, total upcoming count
and the overloaded days; the rounded `avg_per_day` display value is not
modelled). -/
structure WorkloadSuggestion where
  suggestion_type : String
  confidence : ℚ
  total_upcoming : Nat
  overloaded_days : List OverloadedDay
deriving BEq, Repr

/-- `SuggestionService.analyze_workload(tasks, days_ahead)` (Python
default `days_ahead=7`); `today` stands for `datetime.now()` truncated
to midnight. -/
def analyze_workload (tasks : List TaskRow) (today : PyDateTime)
    (days_ahead : Nat) : WorkloadSuggestion :=
  let tasks_by_date := groupByDueDate tasks today days_ahead
  let total_upcoming := (tasks_by_date.map (·.2.length)).sum
  let overloaded_days := tasks_by_date.filterMap fun kv =>
    let task_count := kv.2.length
    let high_priority := (kv.2.filter fun t => t.priority = some "high").length
    if task_count ≥ 5 ∨ high_priority ≥ 3 then
      some (OverloadedDay.mk kv.1 task_count high_priority)
    else none
  if !overloaded_days.isEmpty then
    ⟨"workload", 0.85, total_upcoming,
     overloaded_days.foldl (fun acc x => insertByTaskCountDesc x acc) []⟩
  else
    ⟨"workload", 0.8, total_upcoming, []⟩

/-- The `CATEGORIES` table of `track_habits` (dict, insertion order). -/
def HABIT_CATEGORIES : List (String × List String) :=
  [("gym", ["gym", "workout", "exercise", "fitness", "run", "yoga"]),
   ("work", ["meeting", "call", "email", "report", "project", "review"]),
   ("personal", ["shopping", "grocery", "clean", "laundry", "cook"]),
   ("learning", ["study", "read", "course", "learn", "practice"]),
   ("health", ["doctor", "dentist", "medicine", "health"])]

/-- Time-of-day bucket of a completion hour, as in `track_habits`. -/
def timeOfDayOf (hour : Int) : String :=
  if 5 ≤ hour ∧ hour < 12 then "morning"
  else if 12 ≤ hour ∧ hour < 17 then "afternoon"
  else if 17 ≤ hour ∧ hour < 21 then "evening"
  else "night"

/-- The (category, time-of-day) increments of `track_habits`' counting
loop: one event per completed task with a usable completion time that
matches a category (first matching category wins, loop `break`). -/
def habitEvents (completed_tasks : List TaskRow) : List (String × String) :=
  completed_tasks.filterMap fun t =>
    if !t.completed then none
    else
      match (t.completed_at).orElse (fun _ => t.updated_at) with
      | some (some dt) =>
        HABIT_CATEGORIES.findSome? fun ck =>
          if ck.2.any (fun kw => pyIn kw (pyLower t.title)) then
            some (ck.1, timeOfDayOf dt.hour)
          else none
      | _ => none

/-- Result of `track_habits` (type, confidence, habit entries as
(category, time of day, percentage); Python rounds the stored
percentage for display, the 60% threshold uses the unrounded value). -/
structure HabitSuggestion where
  suggestion_type : String
  confidence : ℚ
  habits : List (String × String × ℚ)
deriving BEq, Repr

/-- Stable descending insertion by percentage. -/
def insertByPctDesc (x : String × String × ℚ) :
    List (String × String × ℚ) → List (String × String × ℚ)
  | [] => [x]
  | y :: t => if x.2.2 ≤ y.2.2 then y :: insertByPctDesc x t else x :: y :: t

/-- `SuggestionService.track_habits(completed_tasks)`. -/
def track_habits (completed_tasks : List TaskRow) : HabitSuggestion :=
  let events := habitEvents completed_tasks
  let habits := (nubStr (events.map (·.1))).flatMap fun cat =>
    let total := (events.filter (·.1 = cat)).length
    if total < 3 then []
    else
      (nubStr ((events.filter (·.1 = cat)).map (·.2))).filterMap fun tod =>
        let count := (events.filter fun e => e.1 = cat ∧ e.2 = tod).length
        let percentage : ℚ := ((count : ℚ) / (total : ℚ)) * 100
        if percentage ≥ 60 then some (cat, tod, percentage) else none
  if !habits.isEmpty then
    ⟨"habit", 0.75, habits.foldl (fun acc x => insertByPctDesc x acc) []⟩
  else
    ⟨"habit", 0.3, []⟩

/-! ## `phase4/backend/src/services/context_manager.py`

`TaskReference.mentioned_at` (a wall-clock timestamp) and the context
TTL/LRU bookkeeping of `ContextManager` are not modelled; recency is
represented by list order (Python appends new references to the end). -/

structure TaskReference where
  task_id : String
  task_title : String
  mention_type : String
deriving DecidableEq, Repr

structure ConversationContext where
  user_id : String
  task_references : List TaskReference
deriving DecidableEq, Repr

/-- Source ``ConversationContext.add_task_reference`: append, keep the last 10. -/
def add_task_reference (ctx : ConversationContext)
    (task_id task_title mention_type : String) : ConversationContext :=
  let refs := ctx.task_references ++ [⟨task_id, task_title, mention_type⟩]
  { ctx with task_references :=
      if refs.length > 10 then refs.drop (refs.length - 10) else refs }

/-- Source ``ConversationContext.get_most_recent_task`: `task_references[-1]`. -/
def get_most_recent_task (ctx : ConversationContext) : Option TaskReference :=
  ctx.task_references.getLast?

/-- Source ``ConversationContext.get_task_by_partial_title`: last reference whose
title contains the partial title (case-insensitively). -/
def get_task_by_partial_title (ctx : ConversationContext) (partial_title : String) :
    Option TaskReference :=
  ctx.task_references.reverse.find? fun ref =>
    pyIn (pyLower partial_title) (pyLower ref.task_title)

/-- Source ``ContextManager.RECENT_TASK_INDICATORS` (a Python set literal,
modelled as a list in source order; the property proved below depends
only on whether some member occurs in the text). -/
def RECENT_TASK_INDICATORS : List String :=
  ["it", "that", "this", "the task", "that task", "this task",
   "the one", "that one", "this one",
   "the one i mentioned", "that one i mentioned",
   "my last task", "the last task", "the last one",
   "the previous task", "the previous one",
   "wo", "woh", "ye", "yeh",
   "wo task", "ye task",
   "wala", "wali",
   "pichla", "pichla task",
   "وہ", "یہ"]

/-- The contexts map of a `ContextManager` (`OrderedDict` keyed by user id;
LRU capacity and TTL expiry are not modelled). -/
abbrev ContextStore := List (String × ConversationContext)

/-- Source ``ContextManager.get_context`: look up or create an empty context. -/
def get_context (store : ContextStore) (user_id : String) : ConversationContext :=
  match store.find? (·.1 = user_id) with
  | some (_, ctx) => ctx
  | none => ⟨user_id, []⟩

/-- Source ``ContextManager.record_task_mention`. -/
def record_task_mention (store : ContextStore) (user_id task_id task_title mention_type : String) :
    ContextStore :=
  let ctx := add_task_reference (get_context store user_id) task_id task_title mention_type
  if store.any (·.1 = user_id) then
    store.map fun kv => if kv.1 = user_id then (user_id, ctx) else kv
  else
    store ++ [(user_id, ctx)]

-- r'"([^"]+)"'  (quoted titles)
def quotedPat : RE :=
  reSeqL [reChar '"', .grp 1 (.rep 1 none true (.cls (.noneOf ['"']))), reChar '"']

-- r"task\s*#?\s*([a-zA-Z0-9-]+)"  (explicit task ids)
def taskIdPat : RE :=
  reSeqL [reLit "task", reWs0, reOpt (reChar '#'), reWs0,
          .grp 1 (.rep 1 none true (.cls (.oneOf
            ("abcdefghijklmnopqrstuvwxyzABCDEFGHIJKLMNOPQRSTUVWXYZ0123456789-".data))))]

/-- Source ``ContextManager.resolve_task_reference(user_id, text)`. -/
def resolve_task_reference (store : ContextStore) (user_id text : String) :
    Option TaskReference :=
  let ctx := get_context store user_id
  let text_lower := pyLower text
  if RECENT_TASK_INDICATORS.any (fun ind => pyIn ind text_lower) then
    get_most_recent_task ctx
  else
    -- re.findall(r'"([^"]+)"', text), first quoted string matching a title
    let quoted := (reFindIter quotedPat text.data).filterMap (fun c => getCap c 1)
    match quoted.findSome? (fun q => get_task_by_partial_title ctx ⟨q⟩) with
    | some ref => some ref
    | none =>
      -- task id mentioned explicitly
      match reSearch taskIdPat text_lower.data with
      | some (_, caps, _, _) =>
        (getCap caps 1).bind fun tid =>
          ctx.task_references.find? fun ref =>
            pyIn ⟨tid⟩ (pyLower ref.task_id)
      | none => none

/-! ## `phase4/backend/src/mcp/server.py` (`MCPToolRegistry`) -/

/-- One registered tool: the dict stored in `MCPToolRegistry._tools`.
`H` is the (opaque) type of handlers. -/
structure ToolDef (H : Type) where
  name : String
  description : String
  parameters : String  -- the JSON-Schema dict, opaque here
  handler : H
deriving DecidableEq, Repr

/-- Source ``MCPToolRegistry._tools` (a Python dict: association list keyed by
name, insertion-ordered, assignment overwrites in place). -/
abbrev Registry (H : Type) := List (String × ToolDef H)

/-- Source ``MCPToolRegistry.register(name, description, parameters, handler)`:
`self._tools[name] = {...}` (dict assignment: replaces any existing
entry, otherwise appends). -/
def register {H : Type} (reg : Registry H)
    (name description parameters : String) (handler : H) : Registry H :=
  let tool : ToolDef H := ⟨name, description, parameters, handler⟩
  if reg.any (·.1 = name) then
    reg.map fun kv => if kv.1 = name then (name, tool) else kv
  else
    reg ++ [(name, tool)]

/-- Source ``MCPToolRegistry.get_tool(name)`. -/
def get_tool {H : Type} (reg : Registry H) (name : String) : Option (ToolDef H) :=
  (reg.find? (·.1 = name)).map (·.2)

/-! ## The per-turn tool execution loop of `AgentService.process_message`

Both the structured-tool-call loop (lines 434-454) and the text-recovered
loop (lines 495-513) run each requested call in order under its own
`try/except`, appending `{"tool": name, "result": ...}` on success and
`{"tool": name, "error": str(e)}` on an exception.  A handler is modelled
as a function from arguments to `Except String R` (`.error` = the handler
raised, carrying `str(e)`). -/

/-- One entry of `tool_calls_results`. -/
inductive ToolCallEntry (R : Type) where
  | ok (tool : String) (result : R)
  | err (tool : String) (error : String)
deriving DecidableEq, Repr

/-- Source ``MCPToolRegistry.execute_tool(name, **kwargs)`: `ValueError` if the
tool is unknown, otherwise whatever the handler does. -/
def execute_tool {A R : Type} (reg : Registry (A → Except String R))
    (name : String) (args : A) : Except String R :=
  match get_tool reg name with
  | none => .error ("Tool \x27" ++ name ++ "\x27 not found")
  | some tool => tool.handler args

/-- The execution loop over the calls of one turn, accumulating
`tool_calls_results` in order. -/
def run_tool_calls_go {A R : Type} (reg : Registry (A → Except String R)) :
    List (String × A) → List (ToolCallEntry R) → List (ToolCallEntry R)
  | [], acc => acc
  | (name, args) :: rest, acc =>
    match execute_tool reg name args with
    | .ok result => run_tool_calls_go reg rest (acc ++ [.ok name result])
    | .error e => run_tool_calls_go reg rest (acc ++ [.err name e])

/-- Source ``tool_calls_results` after processing all tool calls of a turn. -/
def run_tool_calls {A R : Type} (reg : Registry (A → Except String R))
    (calls : List (String × A)) : List (ToolCallEntry R) :=
  run_tool_calls_go reg calls []

/-! ## `AgentService._parse_text_tool_calls` (lines 330-370)

Parameter values that look like JSON arrays/objects are best-effort
decoded with `json.loads`; decoded Python values are modelled by `PyVal`.
The JSON model covers null/booleans/numbers (without exponents)/strings/
arrays/objects, which is adequate for the values exercised below. -/

inductive PyVal where
  | vstr (s : String)
  | vnum (q : ℚ)
  | vbool (b : Bool)
  | vnull
  | varr (xs : List PyVal)
  | vobj (kvs : List (String × PyVal))
deriving BEq, Repr

def jsonSkipWs (s : List Char) : List Char :=
  s.dropWhile (fun c => c = ' ' || c = '\t' || c = '\n' || c = '\r')

/-- Body of a JSON string after the opening quote: returns the decoded
characters and the rest after the closing quote. -/
def jsonStrGo : Nat → List Char → Option (List Char × List Char)
  | 0, _ => none
  | _ + 1, [] => none
  | f + 1, c :: t =>
    if c = '"' then some ([], t)
    else if c = '\\' then
      match t with
      | 'n' :: t2 => (jsonStrGo f t2).map fun (cs, r) => ('\n' :: cs, r)
      | 't' :: t2 => (jsonStrGo f t2).map fun (cs, r) => ('\t' :: cs, r)
      | 'r' :: t2 => (jsonStrGo f t2).map fun (cs, r) => ('\r' :: cs, r)
      | 'b' :: t2 => (jsonStrGo f t2).map fun (cs, r) => (Char.ofNat 8 :: cs, r)
      | 'f' :: t2 => (jsonStrGo f t2).map fun (cs, r) => (Char.ofNat 12 :: cs, r)
      | '"' :: t2 => (jsonStrGo f t2).map fun (cs, r) => ('"' :: cs, r)
      | '/' :: t2 => (jsonStrGo f t2).map fun (cs, r) => ('/' :: cs, r)
      | '\\' :: t2 => (jsonStrGo f t2).map fun (cs, r) => ('\\' :: cs, r)
      | _ => none
    else (jsonStrGo f t).map fun (cs, r) => (c :: cs, r)

def jsonDigits (s : List Char) : List Char × List Char :=
  (s.takeWhile Char.isDigit, s.dropWhile Char.isDigit)

mutual

/-- JSON values (fuelled). -/
def jsonVal : Nat → List Char → Option (PyVal × List Char)
  | 0, _ => none
  | f + 1, s0 =>
    let s := jsonSkipWs s0
    if "null".data.isPrefixOf s then some (.vnull, s.drop 4)
    else if "true".data.isPrefixOf s then some (.vbool true, s.drop 4)
    else if "false".data.isPrefixOf s then some (.vbool false, s.drop 5)
    else
      match s with
      | '"' :: t => (jsonStrGo (t.length + 1) t).map fun (cs, r) => (PyVal.vstr ⟨cs⟩, r)
      | '[' :: t =>
        let t2 := jsonSkipWs t
        (match t2 with
         | ']' :: r => some (.varr [], r)
         | _ => (jsonArrItems f t2).map fun (xs, r) => (PyVal.varr xs, r))
      | c :: t =>
        if c = Char.ofNat 123 then  -- opening brace
          let t2 := jsonSkipWs t
          match t2 with
          | c2 :: r =>
            if c2 = Char.ofNat 125 then some (.vobj [], r)  -- closing brace
            else (jsonObjItems f t2).map fun (kvs, r2) => (PyVal.vobj kvs, r2)
          | [] => none
        else
          -- number: -?digits(.digits)?  (exponents not modelled)
          let (neg, t1) := if c = '-' then (true, t) else (false, c :: t)
          let (intPart, t2) := jsonDigits t1
          if intPart = [] then none
          else
            let ip : ℚ := (digitsToNat intPart : ℚ)
            match t2 with
            | '.' :: t3 =>
              let (fracPart, t4) := jsonDigits t3
              if fracPart = [] then none
              else
                let fq : ℚ := (digitsToNat fracPart : ℚ) / ((10 : ℚ) ^ fracPart.length)
                some (.vnum (if neg then -(ip + fq) else ip + fq), t4)
            | _ => some (.vnum (if neg then -ip else ip), t2)
      | [] => none

/-- Items of a nonempty JSON array, after `[` and leading whitespace. -/
def jsonArrItems : Nat → List Char → Option (List PyVal × List Char)
  | 0, _ => none
  | f + 1, s =>
    (jsonVal f s).bind fun (v, r) =>
      match jsonSkipWs r with
      | ',' :: r2 => (jsonArrItems f (jsonSkipWs r2)).map fun (xs, r3) => (v :: xs, r3)
      | ']' :: r2 => some ([v], r2)
      | _ => none

/-- Items of a nonempty JSON object, after the opening brace and leading
whitespace. -/
def jsonObjItems : Nat → List Char → Option (List (String × PyVal) × List Char)
  | 0, _ => none
  | f + 1, s =>
    match s with
    | '"' :: t =>
      (jsonStrGo (t.length + 1) t).bind fun (k, r) =>
        match jsonSkipWs r with
        | ':' :: r2 =>
          (jsonVal f r2).bind fun (v, r3) =>
            (match jsonSkipWs r3 with
             | ',' :: r4 => (jsonObjItems f (jsonSkipWs r4)).map fun (kvs, r5) =>
                 ((⟨k⟩, v) :: kvs, r5)
             | c :: r4 =>
               if c = Char.ofNat 125 then some ([(⟨k⟩, v)], r4) else none
             | [] => none)
        | _ => none
    | _ => none

end

/-- Source ``json.loads(s)`: parse one value, allow surrounding whitespace only. -/
def jsonParse (s : String) : Option PyVal :=
  (jsonVal (s.length + 1) s.data).bind fun (v, rest) =>
    if jsonSkipWs rest = [] then some v else none

-- function_pattern: r'<function=(\w+)>(.*?)</function>' (re.DOTALL)
def funcPat : RE :=
  reSeqL [reLit "<function=", .grp 1 reWord1, reLit ">",
          .grp 2 (.rep 0 none false (.cls .anyAll)), reLit "</function>"]

-- param_pattern: r'<parameter=(\w+)>([^<]*)</parameter>'
def paramPat : RE :=
  reSeqL [reLit "<parameter=", .grp 1 reWord1, reLit ">",
          .grp 2 (.rep 0 none true (.cls (.noneOf ['<']))), reLit "</parameter>"]

/-- Python dict insertion: `params[key] = value`. -/
def dictInsert (ps : List (String × PyVal)) (k : String) (v : PyVal) :
    List (String × PyVal) :=
  if ps.any (·.1 = k) then
    ps.map fun kv => if kv.1 = k then (k, v) else kv
  else ps ++ [(k, v)]

/-- Source ``AgentService._parse_text_tool_calls(content)`: `none` is Python
`None`, `some calls` a nonempty list of `(function name, params)`. -/
def parse_text_tool_calls (content : String) :
    Option (List (String × List (String × PyVal))) :=
  if content = "" then none
  else if ¬ pyIn "<tool_call>" content ∧ ¬ pyIn "<function=" content then none
  else
    let tool_calls := (reFindIter funcPat content.data).map fun caps =>
      let func_name : String := ⟨(getCap caps 1).getD []⟩
      let func_body : List Char := (getCap caps 2).getD []
      let params := (reFindIter paramPat func_body).foldl (fun ps caps2 =>
        let key : String := ⟨(getCap caps2 1).getD []⟩
        let value : String := pyStrip ⟨(getCap caps2 2).getD []⟩
        let pval :=
          -- try json.loads for values starting with a bracket or brace
          if value.data.head? = some '[' ∨ value.data.head? = some (Char.ofNat 123) then
            match jsonParse value with
            | some j => j
            | none => PyVal.vstr value
          else PyVal.vstr value
        dictInsert ps key pval) []
      -- `if func_name:` always holds (`\w+` captures are nonempty)
      (func_name, params)
    if tool_calls.isEmpty then none else some tool_calls

/-! ## `AgentService._detect_intent` (lines 138-257)

All patterns are applied with `re.IGNORECASE` to the already-lowercased,
stripped message; since every pattern is written in lowercase, the flag
has no effect and plain matching is used.  `dot1` is `(.+)`,
`dotLazy1` is `(.+?)`. -/

def dot1 : RE := .rep 1 none true (.cls .anyNoNL)
def dotLazy1 : RE := .rep 1 none false (.cls .anyNoNL)
def reTasks : RE := .seq (reLit "task") (reOpt (reChar 's'))  -- tasks?
def apos : Char := Char.ofNat 39  -- '

/-- Source ``add_patterns`, in source order. -/
def addPatterns : List RE :=
  [ -- r"^add\s+(?:a\s+)?(?:task\s+)?(?:to\s+)?(.+)"
   reSeqL [reLit "add", reWs1, reOpt (.seq (reLit "a") reWs1),
           reOpt (.seq (reLit "task") reWs1), reOpt (.seq (reLit "to") reWs1),
           .grp 1 dot1],
   -- r"^create\s+(?:a\s+)?(?:task\s+)?(?:to\s+)?(.+)"
   reSeqL [reLit "create", reWs1, reOpt (.seq (reLit "a") reWs1),
           reOpt (.seq (reLit "task") reWs1), reOpt (.seq (reLit "to") reWs1),
           .grp 1 dot1],
   -- r"^remind\s+me\s+(?:to\s+)?(.+)"
   reSeqL [reLit "remind", reWs1, reLit "me", reWs1,
           reOpt (.seq (reLit "to") reWs1), .grp 1 dot1],
   -- r"^i\s+(?:need|have|want)\s+to\s+(.+)"
   reSeqL [reLit "i", reWs1, reAltL [reLit "need", reLit "have", reLit "want"],
           reWs1, reLit "to", reWs1, .grp 1 dot1],
   -- r"^(?:gotta|got\s+to)\s+(.+)"
   reSeqL [.alt (reLit "gotta") (reSeqL [reLit "got", reWs1, reLit "to"]),
           reWs1, .grp 1 dot1],
   -- r"^don'?t\s+forget\s+(?:to\s+)?(.+)"
   reSeqL [reLit "don", reOpt (reChar apos), reLit "t", reWs1, reLit "forget",
           reWs1, reOpt (.seq (reLit "to") reWs1), .grp 1 dot1],
   -- r"^task\s*:?\s*(.+)"
   reSeqL [reLit "task", reWs0, reOpt (reChar ':'), reWs0, .grp 1 dot1],
   -- r"^task\s+add\s+kar[o]?\s*:?\s*(.+)"
   reSeqL [reLit "task", reWs1, reLit "add", reWs1, reLit "kar",
           reOpt (reChar 'o'), reWs0, reOpt (reChar ':'), reWs0, .grp 1 dot1],
   -- r"^(.+)\s+add\s+kar[o]?"
   reSeqL [.grp 1 dot1, reWs1, reLit "add", reWs1, reLit "kar", reOpt (reChar 'o')],
   -- r"^ek\s+(?:naya\s+)?task\s+(?:banana?\s+hai\s+)?(.+)"
   reSeqL [reLit "ek", reWs1, reOpt (.seq (reLit "naya") reWs1),
           reLit "task", reWs1,
           reOpt (reSeqL [reLit "banan", reOpt (reChar 'a'), reWs1,
                          reLit "hai", reWs1]),
           .grp 1 dot1]]

-- r'\s+to\s+my\s+list\.?$'  (title cleanup)
def titleCleanupPat : RE :=
  reSeqL [reWs1, reLit "to", reWs1, reLit "my", reWs1, reLit "list",
          reOpt (reChar '.'), .eol]

-- r'every\s+(day|daily)'
def everyDayPat : RE :=
  reSeqL [reLit "every", reWs1, .grp 1 (.alt (reLit "day") (reLit "daily"))]

-- r'every\s+(week|monday|tuesday|wednesday|thursday|friday|saturday|sunday)'
def everyWeekPat : RE :=
  reSeqL [reLit "every", reWs1,
          .grp 1 (reAltL [reLit "week", reLit "monday", reLit "tuesday",
                          reLit "wednesday", reLit "thursday", reLit "friday",
                          reLit "saturday", reLit "sunday"])]

-- r'every\s+month'
def everyMonthPat : RE := reSeqL [reLit "every", reWs1, reLit "month"]

-- r'urgent|asap|critical|important|zaroori|zaruri'
def urgentPat : RE :=
  reAltL [reLit "urgent", reLit "asap", reLit "critical", reLit "important",
          reLit "zaroori", reLit "zaruri"]

-- r'low\s+priority|whenever|no\s+rush'
def lowPrioPat : RE :=
  reAltL [reSeqL [reLit "low", reWs1, reLit "priority"],
          reLit "whenever",
          reSeqL [reLit "no", reWs1, reLit "rush"]]

/-- Source ``list_patterns`, in source order. -/
def listPatterns : List RE :=
  [ -- r"^show\s+(?:me\s+)?(?:my\s+)?(?:all\s+)?tasks?"
   reSeqL [reLit "show", reWs1, reOpt (.seq (reLit "me") reWs1),
           reOpt (.seq (reLit "my") reWs1), reOpt (.seq (reLit "all") reWs1),
           reTasks],
   -- r"^list\s+(?:my\s+)?(?:all\s+)?tasks?"
   reSeqL [reLit "list", reWs1, reOpt (.seq (reLit "my") reWs1),
           reOpt (.seq (reLit "all") reWs1), reTasks],
   -- r"^what\s+(?:are\s+)?(?:my\s+)?tasks?"
   reSeqL [reLit "what", reWs1, reOpt (.seq (reLit "are") reWs1),
           reOpt (.seq (reLit "my") reWs1), reTasks],
   -- r"^(?:my\s+)?tasks?\s*\??$"
   reSeqL [reOpt (.seq (reLit "my") reWs1), reTasks, reWs0,
           reOpt (reChar '?'), .eol],
   -- r"^what\s+do\s+i\s+have"
   reSeqL [reLit "what", reWs1, reLit "do", reWs1, reLit "i", reWs1, reLit "have"],
   -- r"^what'?s\s+pending"
   reSeqL [reLit "what", reOpt (reChar apos), reLit "s", reWs1, reLit "pending"],
   -- r"^pending\s+tasks?"
   reSeqL [reLit "pending", reWs1, reTasks],
   -- r"^(?:mere\s+)?tasks?\s+dikha[o]?"
   reSeqL [reOpt (.seq (reLit "mere") reWs1), reTasks, reWs1, reLit "dikha",
           reOpt (reChar 'o')],
   -- r"^kya\s+pending\s+hai"
   reSeqL [reLit "kya", reWs1, reLit "pending", reWs1, reLit "hai"]]

/-- Source ``complete_patterns`, in source order. -/
def completePatterns : List RE :=
  [ -- r"^(?:mark\s+)?(?:task\s+)?(.+?)\s+(?:as\s+)?(?:done|complete[d]?|finished)"
   reSeqL [reOpt (.seq (reLit "mark") reWs1), reOpt (.seq (reLit "task") reWs1),
           .grp 1 dotLazy1, reWs1, reOpt (.seq (reLit "as") reWs1),
           reAltL [reLit "done",
                   .seq (reLit "complete") (reOpt (reChar 'd')),
                   reLit "finished"]],
   -- r"^complete\s+(?:task\s+)?(.+)"
   reSeqL [reLit "complete", reWs1, reOpt (.seq (reLit "task") reWs1),
           .grp 1 dot1],
   -- r"^(?:i\s+)?(?:did|finished|done\s+with)\s+(.+)"
   reSeqL [reOpt (.seq (reLit "i") reWs1),
           reAltL [reLit "did", reLit "finished",
                   reSeqL [reLit "done", reWs1, reLit "with"]],
           reWs1, .grp 1 dot1],
   -- r"^task\s+(.+?)\s+ho\s+gaya"
   reSeqL [reLit "task", reWs1, .grp 1 dotLazy1, reWs1, reLit "ho", reWs1,
           reLit "gaya"],
   -- r"^(.+?)\s+complete\s+kar[o]?"
   reSeqL [.grp 1 dotLazy1, reWs1, reLit "complete", reWs1, reLit "kar",
           reOpt (reChar 'o')]]

/-- Source ``delete_patterns`, in source order. -/
def deletePatterns : List RE :=
  [ -- r"^delete\s+(?:the\s+)?(?:task\s+)?(.+)"
   reSeqL [reLit "delete", reWs1, reOpt (.seq (reLit "the") reWs1),
           reOpt (.seq (reLit "task") reWs1), .grp 1 dot1],
   -- r"^remove\s+(?:the\s+)?(?:task\s+)?(.+)"
   reSeqL [reLit "remove", reWs1, reOpt (.seq (reLit "the") reWs1),
           reOpt (.seq (reLit "task") reWs1), .grp 1 dot1],
   -- r"^cancel\s+(?:the\s+)?(?:task\s+)?(.+)"
   reSeqL [reLit "cancel", reWs1, reOpt (.seq (reLit "the") reWs1),
           reOpt (.seq (reLit "task") reWs1), .grp 1 dot1],
   -- r"^(?:get\s+rid\s+of|scratch)\s+(.+)"
   reSeqL [.alt (reSeqL [reLit "get", reWs1, reLit "rid", reWs1, reLit "of"])
                (reLit "scratch"),
           reWs1, .grp 1 dot1],
   -- r"^task\s+(.+?)\s+(?:delete|hata)\s*(?:kar[o]?|do)?"
   reSeqL [reLit "task", reWs1, .grp 1 dotLazy1, reWs1,
           .alt (reLit "delete") (reLit "hata"), reWs0,
           reOpt (.alt (.seq (reLit "kar") (reOpt (reChar 'o'))) (reLit "do"))],
   -- r"^(.+?)\s+(?:delete|hata)\s+kar[o]?"
   reSeqL [.grp 1 dotLazy1, reWs1, .alt (reLit "delete") (reLit "hata"),
           reWs1, reLit "kar", reOpt (reChar 'o')]]

-- r'^all\s+(?:my\s+)?tasks?$'
def allTasksPat : RE :=
  reSeqL [reLit "all", reWs1, reOpt (.seq (reLit "my") reWs1), reTasks, .eol]

/-- Source ``analytics_patterns`, in source order. -/
def analyticsPatterns : List RE :=
  [ -- r"^(?:show\s+)?(?:my\s+)?(?:stats|statistics|analytics|progress)"
   reSeqL [reOpt (.seq (reLit "show") reWs1), reOpt (.seq (reLit "my") reWs1),
           reAltL [reLit "stats", reLit "statistics", reLit "analytics",
                   reLit "progress"]],
   -- r"^how\s+am\s+i\s+doing"
   reSeqL [reLit "how", reWs1, reLit "am", reWs1, reLit "i", reWs1, reLit "doing"],
   -- r"^(?:kitne|how\s+many)\s+tasks?\s+(?:pending|done|completed)"
   reSeqL [.alt (reLit "kitne") (reSeqL [reLit "how", reWs1, reLit "many"]),
           reWs1, reTasks, reWs1,
           reAltL [reLit "pending", reLit "done", reLit "completed"]],
   -- r"^mera\s+progress"
   reSeqL [reLit "mera", reWs1, reLit "progress"]]

/-- The add-task branch: title extraction and parameter building
(lines 161-185). -/
def buildAddParams (g1 : List Char) (msg : String) : List (String × String) :=
  let title := pyStrip ⟨g1⟩
  let title : String := ⟨reSub titleCleanupPat [] title.data⟩
  let title := pyStripChars ['.', ',', '!', '?'] title
  let params := [("title", if title.length < 50 then pyTitle title else title)]
  let params :=
    if (reSearch everyDayPat msg.data).isSome ∨ pyIn "har roz" msg then
      params ++ [("recurrence_pattern", "daily")]
    else if (reSearch everyWeekPat msg.data).isSome ∨ pyIn "har hafta" msg then
      params ++ [("recurrence_pattern", "weekly")]
    else if (reSearch everyMonthPat msg.data).isSome ∨ pyIn "har mahina" msg then
      params ++ [("recurrence_pattern", "monthly")]
    else params
  if (reSearch urgentPat msg.data).isSome then params ++ [("priority", "high")]
  else if (reSearch lowPrioPat msg.data).isSome then params ++ [("priority", "low")]
  else params

/-- Source ``AgentService._detect_intent(message)`: `(tool_name, parameters)` or
`none`. -/
def detect_intent (message : String) : Option (String × List (String × String)) :=
  let msg := pyStrip (pyLower message)
  match addPatterns.findSome? (fun p =>
      (reSearchAnchored p msg.data).bind fun (caps, _, _) => getCap caps 1) with
  | some g1 => some ("add_task", buildAddParams g1 msg)
  | none =>
  if listPatterns.any (fun p => (reSearchAnchored p msg.data).isSome) then
    let params : List (String × String) :=
      if pyIn "pending" msg ∨ pyIn "incomplete" msg then [("status", "pending")]
      else if pyIn "completed" msg ∨ pyIn "done" msg ∨ pyIn "finished" msg then
        [("status", "completed")]
      else []
    some ("list_tasks", params)
  else
  match completePatterns.findSome? (fun p =>
      (reSearchAnchored p msg.data).bind fun (caps, _, _) => getCap caps 1) with
  | some g1 => some ("complete_task", [("task_ref", pyStrip ⟨g1⟩)])
  | none =>
  match deletePatterns.findSome? (fun p =>
      (reSearchAnchored p msg.data).bind fun (caps, _, _) => getCap caps 1) with
  | some g1 =>
    let task_ref := pyStrip ⟨g1⟩
    if (reSearchAnchored allTasksPat task_ref.data).isSome then
      some ("delete_all", [])
    else
      some ("delete_task", [("task_ref", task_ref)])
  | none =>
  if analyticsPatterns.any (fun p => (reSearchAnchored p msg.data).isSome) then
    some ("get_analytics", [])
  else
    none

/-- The entry the loop records for one requested call. -/
def tool_call_entry {A R : Type} (reg : Registry (A → Except String R))
    (call : String × A) : ToolCallEntry R :=
  match execute_tool reg call.1 call.2 with
  | .ok result => .ok call.1 result
  | .error e => .err call.1 e

/-- The first character any match of the pattern must start with, when
that is syntactically forced (used to show the sanitizer's tag patterns
cannot fire on markup-free text). -/
def firstLit : RE → Option Char
  | .str (c :: _) => some c
  | .seq a _ => firstLit a
  | .grp _ a => firstLit a
  | _ => none

/-! # Theorems -/

/-! ## C3: `MCPToolRegistry.register` on an already-registered name -/

/-- Registering any name makes `get_tool` return exactly the newly stored
definition (dict assignment semantics). -/
theorem get_tool_register_self {H : Type} (reg : Registry H)
    (name description parameters : String) (handler : H) :
    get_tool (register reg name description parameters handler) name =
      some ⟨name, description, parameters, handler⟩ := by
  unfold get_tool register
  by_cases hany : reg.any (·.1 = name)
  · simp only [hany, if_true]
    induction reg with
    | nil => simp at hany
    | cons kv rest ih =>
      by_cases hkv : kv.1 = name
      · simp [List.find?, hkv]
      · simp only [List.any_cons] at hany
        rcases Bool.or_eq_true_iff.mp hany with h | h
        · exact absurd (by simpa using h) hkv
        · simpa [List.find?, hkv] using ih h
  · simp only [hany, Bool.false_eq_true, if_false]
    have hnone : (reg.find? (·.1 = name)) = none := by
      rw [List.find?_eq_none]
      intro kv hkv
      simp only [List.any_eq_true] at hany
      intro hfst
      exact hany ⟨kv, hkv, by simpa using hfst⟩
    rw [List.find?_append, hnone]
    simp [List.find?]

/-- Claim C3, counterexample: re-registering the name `"add_task"` is not
rejected — the second registration succeeds and replaces the previously
stored description, schema and handler (handlers modelled by `Nat` tags
here). -/
theorem register_duplicate_not_rejected :
    get_tool (register (register ([] : Registry Nat)
        "add_task" "first description" "schema one" 1)
        "add_task" "second description" "schema two" 2) "add_task" =
      some ⟨"add_task", "second description", "schema two", 2⟩ ∧
    get_tool (register (register ([] : Registry Nat)
        "add_task" "first description" "schema one" 1)
        "add_task" "second description" "schema two" 2) "add_task" ≠
      some ⟨"add_task", "first description", "schema one", 1⟩ := by
  constructor
  · decide
  · decide

/-- Claim C3 (amended): calling `register` with a name that is already
registered does not fail; the second registration replaces the previously
registered definition (description, schema, handler) — last write wins. -/
theorem register_overwrites_existing {H : Type} (reg : Registry H)
    (name d1 p1 d2 p2 : String) (h1 h2 : H) :
    get_tool (register (register reg name d1 p1 h1) name d2 p2 h2) name =
      some ⟨name, d2, p2, h2⟩ :=
  get_tool_register_self (register reg name d1 p1 h1) name d2 p2 h2

/-! ## C2: per-tool error isolation in the tool-execution loop -/

theorem run_tool_calls_go_append {A R : Type} (reg : Registry (A → Except String R))
    (calls : List (String × A)) (acc : List (ToolCallEntry R)) :
    run_tool_calls_go reg calls acc = acc ++ run_tool_calls_go reg calls [] := by
  induction calls generalizing acc with
  | nil => simp [run_tool_calls_go]
  | cons c rest ih =>
    obtain ⟨name, args⟩ := c
    unfold run_tool_calls_go
    cases hx : execute_tool reg name args with
    | ok r =>
      dsimp only
      simp only [List.nil_append]
      rw [ih (acc ++ [ToolCallEntry.ok name r]), ih [ToolCallEntry.ok name r]]
      simp
    | error e =>
      dsimp only
      simp only [List.nil_append]
      rw [ih (acc ++ [ToolCallEntry.err name e]), ih [ToolCallEntry.err name e]]
      simp

theorem run_tool_calls_cons {A R : Type} (reg : Registry (A → Except String R))
    (c : String × A) (rest : List (String × A)) :
    run_tool_calls reg (c :: rest) = tool_call_entry reg c :: run_tool_calls reg rest := by
  obtain ⟨name, args⟩ := c
  unfold run_tool_calls tool_call_entry
  conv_lhs => unfold run_tool_calls_go
  cases hx : execute_tool reg name args with
  | ok r =>
    dsimp only
    simp only [List.nil_append]
    rw [run_tool_calls_go_append reg rest [ToolCallEntry.ok name r]]
    simp
  | error e =>
    dsimp only
    simp only [List.nil_append]
    rw [run_tool_calls_go_append reg rest [ToolCallEntry.err name e]]
    simp

theorem run_tool_calls_eq_map {A R : Type} (reg : Registry (A → Except String R))
    (calls : List (String × A)) :
    run_tool_calls reg calls = calls.map (tool_call_entry reg) := by
  induction calls with
  | nil => rfl
  | cons c rest ih => rw [run_tool_calls_cons, ih, List.map_cons]

/-- Claim C2: over a turn's list of requested tool calls (structured or
text-recovered), the loop produces exactly one entry per call, in the
order given; a call whose handler raises (or whose tool is unknown) is
recorded as a per-tool `{tool, error}` entry, and every other call is
still executed and recorded with its own result. -/
theorem run_tool_calls_isolates_errors {A R : Type}
    (reg : Registry (A → Except String R)) (calls : List (String × A)) :
    (run_tool_calls reg calls).length = calls.length ∧
    (∀ i : Nat, (run_tool_calls reg calls)[i]? =
      (calls[i]?).map fun call =>
        match execute_tool reg call.1 call.2 with
        | .ok result => ToolCallEntry.ok call.1 result
        | .error e => ToolCallEntry.err call.1 e) := by
  refine ⟨?_, ?_⟩
  · rw [run_tool_calls_eq_map]; exact List.length_map _ _
  · intro i
    rw [run_tool_calls_eq_map, List.getElem?_map]
    rfl

/-! ## C8: pronoun references resolve to the most recent mention -/

/-- Claim C8: whenever the user's conversation context holds at least one
recorded task mention and the text contains one of the configured
pronoun/demonstrative indicators (as a substring of the lowercased text),
`resolve_task_reference` returns the most recently recorded mention (the
last element of the reference list). -/
theorem resolve_reference_returns_most_recent (store : ContextStore)
    (user_id text : String)
    (hrefs : (get_context store user_id).task_references ≠ [])
    (hind : RECENT_TASK_INDICATORS.any (fun ind => pyIn ind (pyLower text)) = true) :
    resolve_task_reference store user_id text =
      some ((get_context store user_id).task_references.getLast hrefs) := by
  unfold resolve_task_reference
  dsimp only
  rw [hind]
  simp only [if_true, get_most_recent_task]
  exact List.getLast?_eq_getLast _ hrefs

/-- Witness for C8: after recording a mention of task A and then task B
for user `"u1"`, resolving `"it"` returns the task-B reference. -/
theorem resolve_reference_returns_most_recent_witness :
    resolve_task_reference
      (record_task_mention
        (record_task_mention [] "u1" "id-a" "Task A" "created")
        "u1" "id-b" "Task B" "created")
      "u1" "it" = some ⟨"id-b", "Task B", "created"⟩ := by
  have h := resolve_reference_returns_most_recent
    (record_task_mention
      (record_task_mention [] "u1" "id-a" "Task A" "created")
      "u1" "id-b" "Task B" "created")
    "u1" "it" (by decide) (by decide)
  exact h.trans (by decide)

/-! ## C7: rule-based intent detection on the three specified messages -/

/-- Claim C7, counterexample: `_detect_intent("Add a task to buy milk")`
does detect the create intent, but its title slot is the title-cased
`"Buy Milk"` (titles shorter than 50 characters go through
`str.title()`), not the literal `"buy milk"` stated by the claim. -/
theorem detect_intent_title_not_lowercase :
    detect_intent "Add a task to buy milk" ≠
      some ("add_task", [("title", "buy milk")]) ∧
    detect_intent "Add a task to buy milk" =
      some ("add_task", [("title", "Buy Milk")]) := by
  constructor
  · decide
  · decide

/-- Claim C7 (amended): `_detect_intent` maps "Add a task to buy milk" to
the create intent with title slot `"Buy Milk"` (the extracted title is
title-cased because it is shorter than 50 characters), maps "Show my
tasks" to the list intent with no parameters, and detects no intent for
"hello". -/
theorem detect_intent_examples :
    detect_intent "Add a task to buy milk" =
      some ("add_task", [("title", "Buy Milk")]) ∧
    detect_intent "Show my tasks" = some ("list_tasks", []) ∧
    detect_intent "hello" = none := by
  refine ⟨by decide, by decide, by decide⟩

/-! ## C6: default priority suggestion -/

/-- Claim C6, counterexample: `"call mom today"` contains no urgency
keyword and no flexibility keyword, yet `suggest_priority` returns
confidence 0.7 (the time-sensitive tier), not 0.5: a third keyword tier
(`TIME_SENSITIVE_KEYWORDS`) sits between the flexibility scan and the
default. -/
theorem suggest_priority_time_tier_counterexample :
    HIGH_PRIORITY_KEYWORDS.all
      (fun k => !(pyIn k (pyLower ("call mom today" ++ " " ++ "")))) = true ∧
    LOW_PRIORITY_KEYWORDS.all
      (fun k => !(pyIn k (pyLower ("call mom today" ++ " " ++ "")))) = true ∧
    (suggest_priority "call mom today" none).suggested_priority = "medium" ∧
    (suggest_priority "call mom today" none).confidence = 0.7 ∧
    (suggest_priority "call mom today" none).confidence ≠ 0.5 := by
  have hconf : (suggest_priority "call mom today" none).confidence = 0.7 := rfl
  refine ⟨by decide, by decide, by decide, hconf, ?_⟩
  rw [hconf]
  norm_num

/-- Claim C6 (amended): for every task title and optional description
whose combined lowercased text contains no urgency keyword, no
flexibility keyword, and no time-sensitive keyword, `suggest_priority`
returns the default suggestion: priority "medium" with confidence
exactly 0.5 and no trigger. -/
theorem suggest_priority_default (title : String) (desc : Option String)
    (h1 : HIGH_PRIORITY_KEYWORDS.all
        (fun k => !(pyIn k (pyLower (title ++ " " ++ desc.getD "")))) = true)
    (h2 : LOW_PRIORITY_KEYWORDS.all
        (fun k => !(pyIn k (pyLower (title ++ " " ++ desc.getD "")))) = true)
    (h3 : TIME_SENSITIVE_KEYWORDS.all
        (fun k => !(pyIn k (pyLower (title ++ " " ++ desc.getD "")))) = true) :
    suggest_priority title desc =
      ⟨"priority",
       "No specific urgency indicators found. Defaulting to medium priority.",
       0.5, "medium", none⟩ := by
  unfold suggest_priority
  dsimp only
  have fnone : ∀ (l : List String),
      l.all (fun k => !(pyIn k (pyLower (title ++ " " ++ desc.getD "")))) = true →
      l.find? (fun k => pyIn k (pyLower (title ++ " " ++ desc.getD ""))) = none := by
    intro l hl
    rw [List.find?_eq_none]
    intro x hx
    have := List.all_eq_true.mp hl x hx
    simpa using this
  rw [fnone _ h1, fnone _ h2, fnone _ h3]

/-- Witness for C6 (amended): `"wash dishes"` matches nothing and yields
the default medium/0.5 suggestion. -/
theorem suggest_priority_default_witness :
    suggest_priority "wash dishes" none =
      ⟨"priority",
       "No specific urgency indicators found. Defaulting to medium priority.",
       0.5, "medium", none⟩ :=
  suggest_priority_default "wash dishes" none (by decide) (by decide) (by decide)

/-! ## Substring lemmas bridging `pyIn`/`listStrip` and `List.IsInfix` -/

theorem listHasSub_iff_isInfix (hay needle : List Char) :
    listHasSub hay needle = true ↔ needle <:+: hay := by
  induction hay with
  | nil =>
    unfold listHasSub
    simp [ List.isPrefixOf_iff_prefix, List.prefix_nil, List.infix_nil]
  | cons c t ih =>
    unfold listHasSub
    rw [Bool.or_eq_true_iff, List.isPrefixOf_iff_prefix, ih, List.infix_cons_iff]

theorem pyIn_iff_isInfix (needle hay : String) :
    pyIn needle hay = true ↔ needle.data <:+: hay.data :=
  listHasSub_iff_isInfix hay.data needle.data

/-- Source ``str.strip()` yields an infix of the original list. -/
theorem listStrip_infix (x : List Char) : listStrip x <:+: x := by
  unfold listStrip
  have h1 : x.dropWhile pyIsSpace <:+ x := List.dropWhile_suffix _
  have h2 : (x.dropWhile pyIsSpace).reverse.dropWhile pyIsSpace <:+
      (x.dropWhile pyIsSpace).reverse := List.dropWhile_suffix _
  have h3 : ((x.dropWhile pyIsSpace).reverse.dropWhile pyIsSpace).reverse <:+:
      (x.dropWhile pyIsSpace) := by
    rw [← List.reverse_infix]
    simpa using h2.isInfix
  exact h3.trans h1.isInfix

/-- Dropping leading characters that all fail on `n` preserves `n` as an
infix. -/
theorem infix_dropWhile_of_all_false (p : Char → Bool) (x n : List Char)
    (hn : n ≠ []) (hall : ∀ c ∈ n, p c = false) (h : n <:+: x) :
    n <:+: x.dropWhile p := by
  obtain ⟨a, b, rfl⟩ := h
  rw [List.append_assoc, List.dropWhile_append]
  split
  · rw [List.dropWhile_append]
    have hd : n.dropWhile p = n := by
      cases n with
      | nil => simp at hn
      | cons c t =>
        rw [List.dropWhile_cons_of_neg]
        simp [hall c (by simp)]
    rw [hd]
    simp only [List.isEmpty_eq_true] at *
    split
    · simp_all
    · exact ⟨[], b, by simp⟩
  · exact ⟨List.dropWhile p a, b, by simp⟩

/-- A nonempty, whitespace-free needle survives `str.strip()`. -/
theorem infix_listStrip_of_no_space (x n : List Char) (hn : n ≠ [])
    (hall : ∀ c ∈ n, pyIsSpace c = false) (h : n <:+: x) :
    n <:+: listStrip x := by
  unfold listStrip
  have s1 : n <:+: x.dropWhile pyIsSpace :=
    infix_dropWhile_of_all_false pyIsSpace x n hn hall h
  have s2 : n.reverse <:+: (x.dropWhile pyIsSpace).reverse :=
    List.reverse_infix.mpr s1
  have s3 : n.reverse <:+: (x.dropWhile pyIsSpace).reverse.dropWhile pyIsSpace := by
    refine infix_dropWhile_of_all_false pyIsSpace _ _ ?_ ?_ s2
    · simpa using hn
    · intro c hc
      exact hall c (List.mem_reverse.mp hc)
  have := List.reverse_infix.mpr s3
  simpa using this

/-! ## C10: "midnight" is shadowed by "night" in `TIME_OF_DAY` -/

/-- Claim C10, counterexample: the claim quantifies over every text
containing "midnight", but a text that also contains an earlier-listed
period name is mapped to that earlier period: `"morning or midnight"`
yields (9, 0), not (21, 0). -/
theorem parse_time_midnight_counterexample :
    pyIn "midnight" (pyLower "morning or midnight") = true ∧
    parse_time_from_text "morning or midnight" = some (9, 0) ∧
    ((9, 0) : Nat × Nat) ≠ (21, 0) := by
  refine ⟨by decide, by decide, by decide⟩

/-- Claim C10 (amended): for every text containing "midnight" (in its
lowercased form), `parse_time_from_text` never returns midnight's own
table entry (0, 0) — the insertion-ordered substring scan hits "night",
a substring of "midnight", first —, and when none of the earlier table
entries "morning"/"afternoon"/"evening" occurs in the text the result is
exactly the "night" mapping (21, 0). -/
theorem parse_time_midnight_shadowed_by_night (text : String)
    (h : pyIn "midnight" (pyLower text) = true) :
    parse_time_from_text text ≠ some (0, 0) ∧
    (pyIn "morning" (pyLower text) = false →
     pyIn "afternoon" (pyLower text) = false →
     pyIn "evening" (pyLower text) = false →
     parse_time_from_text text = some (21, 0)) := by
  set tl := pyStrip (pyLower text) with htl
  -- "night" occurs in the lowercased, stripped text
  have hmid : "midnight".data <:+: (pyLower text).data := (pyIn_iff_isInfix _ _).mp h
  have hnight0 : "night".data <:+: (pyLower text).data := by
    refine List.IsInfix.trans ?_ hmid
    decide
  have hnight : pyIn "night" tl = true := by
    rw [htl, pyIn_iff_isInfix, pyStrip]
    exact infix_listStrip_of_no_space _ _ (by decide) (by decide) hnight0
  -- transfer of non-containment from the lowercased text to the stripped text
  have hmono : ∀ w : String, pyIn w (pyLower text) = false → pyIn w tl = false := by
    intro w hw
    rcases hv : pyIn w tl with _ | _
    · rfl
    · exfalso
      have : w.data <:+: (pyLower text).data :=
        ((pyIn_iff_isInfix _ _).mp hv).trans (by rw [htl, pyStrip]; exact listStrip_infix _)
      rw [(pyIn_iff_isInfix _ _).mpr this] at hw
      simp at hw
  unfold parse_time_from_text
  rw [← htl]
  constructor
  · -- never (0, 0): one of the first four entries fires
    rcases h1 : pyIn "morning" tl with _ | _ <;>
    rcases h2 : pyIn "afternoon" tl with _ | _ <;>
    rcases h3 : pyIn "evening" tl with _ | _ <;>
      simp [TIME_OF_DAY, List.findSome?_cons, h1, h2, h3, hnight]
  · intro m1 m2 m3
    have h1 := hmono _ m1
    have h2 := hmono _ m2
    have h3 := hmono _ m3
    simp [TIME_OF_DAY, List.findSome?_cons, h1, h2, h3, hnight]

/-- Witness for C10: `"meet at midnight"` parses to (21, 0). -/
theorem parse_time_midnight_witness :
    parse_time_from_text "meet at midnight" = some (21, 0) :=
  (parse_time_midnight_shadowed_by_night "meet at midnight" (by decide)).2
    (by decide) (by decide) (by decide)

/-! ## C5: ISO dates do not take precedence over earlier-checked forms -/

/-- Claim C5, counterexample: `"monday 2024-05-10"` contains an explicit
ISO calendar date (the ISO branch alone would return 2024-05-10 with
confidence 1.0), but `parse_natural_date` returns the standalone-weekday
result (the Monday after the reference date) with confidence 0.7: the
weekday check runs before the ISO check. -/
theorem parse_natural_date_iso_loses_to_weekday :
    stage_iso "monday 2024-05-10" =
      some ⟨some ⟨2024, 5, 10, 0, 0⟩, "monday 2024-05-10", 1⟩ ∧
    (parse_natural_date "monday 2024-05-10" ⟨2024, 1, 1, 0, 0⟩).date =
      some ⟨2024, 1, 8, 0, 0⟩ ∧
    (parse_natural_date "monday 2024-05-10" ⟨2024, 1, 1, 0, 0⟩).confidence = 0.7 ∧
    ((0.7 : ℚ) ≠ 1) := by
  refine ⟨rfl, by decide, rfl, by norm_num⟩

/-- Claim C5 (amended): the ordered checks place the ISO form after the
relative/week/weekday/"in X days" forms and before only the slash-dash
numeric form.  Whenever none of the nine earlier-checked stages fires,
a matching (valid) ISO calendar date is returned exactly, with
confidence 1.0; so ISO wins over the slash/dash numeric date, but any
earlier-checked lower-confidence form present in the same text wins over
the ISO date. -/
theorem parse_natural_date_iso_when_earlier_stages_miss
    (text : String) (ref : PyDateTime) (r : DateParseResult)
    (h1 : stage_end_of_week text ref = none)
    (h2 : stage_end_of_month text ref = none)
    (h3 : stage_next_quarter text ref = none)
    (h4 : stage_relative text ref = none)
    (h5 : stage_week text ref = none)
    (h6 : stage_next_day text ref = none)
    (h7 : stage_this_day text ref = none)
    (h8 : stage_in_days text ref = none)
    (h9 : stage_day_names text ref = none)
    (hiso : stage_iso text = some r) :
    parse_natural_date text ref = r ∧ r.confidence = 1 := by
  constructor
  · unfold parse_natural_date
    rw [h1, h2, h3, h4, h5, h6, h7, h8, h9, hiso]
    rfl
  · unfold stage_iso at hiso
    rcases hs : reSearch isoPat text.data with _ | ⟨pre, caps, m, post⟩ <;> rw [hs] at hiso
    · simp at hiso
    · rw [Option.some_bind] at hiso
      dsimp only at hiso
      rcases hg1 : getCap caps 1 with _ | g1 <;> rw [hg1] at hiso
      · simp at hiso
      rw [Option.some_bind] at hiso
      rcases hg2 : getCap caps 2 with _ | g2 <;> rw [hg2] at hiso
      · simp at hiso
      rw [Option.some_bind] at hiso
      rcases hg3 : getCap caps 3 with _ | g3 <;> rw [hg3] at hiso
      · simp at hiso
      rw [Option.some_bind] at hiso
      split at hiso
      · rw [← Option.some_inj.mp hiso]
      · simp at hiso

/-- Witness for C5 (amended): `"due 2024-05-10"` matches none of the
earlier stages, and parses exactly to 2024-05-10 with confidence 1.0. -/
theorem parse_natural_date_iso_witness :
    parse_natural_date "due 2024-05-10" ⟨2024, 1, 1, 0, 0⟩ =
      ⟨some ⟨2024, 5, 10, 0, 0⟩, "due 2024-05-10", 1⟩ :=
  (parse_natural_date_iso_when_earlier_stages_miss "due 2024-05-10"
    ⟨2024, 1, 1, 0, 0⟩ ⟨some ⟨2024, 5, 10, 0, 0⟩, "due 2024-05-10", 1⟩
    (by decide) (by decide) (by decide) (by decide) (by decide)
    (by decide) (by decide) (by decide) (by decide) rfl).1

/-! ## C9: confidence values lie in [0,1] -/

/-- All confidences of a possible stage result lie in `[0,1]`. -/
def confOK : Option DateParseResult → Prop
  | none => True
  | some r => 0 ≤ r.confidence ∧ r.confidence ≤ 1

theorem confOK_ite (c : Prop) [Decidable c] (a b : Option DateParseResult)
    (ha : confOK a) (hb : confOK b) : confOK (if c then a else b) := by
  split
  · exact ha
  · exact hb

theorem confOK_bind {α : Type} (o : Option α) (f : α → Option DateParseResult)
    (hf : ∀ x, confOK (f x)) : confOK (o.bind f) := by
  cases o with
  | none => trivial
  | some a => exact hf a

theorem confOK_map {α : Type} (o : Option α) (f : α → DateParseResult)
    (hf : ∀ x, 0 ≤ (f x).confidence ∧ (f x).confidence ≤ 1) :
    confOK (o.map f) := by
  cases o with
  | none => trivial
  | some a => exact hf a

theorem confOK_findSome? {α : Type} (l : List α) (f : α → Option DateParseResult)
    (hf : ∀ x ∈ l, confOK (f x)) : confOK (l.findSome? f) := by
  induction l with
  | nil => trivial
  | cons x t ih =>
    rw [List.findSome?_cons]
    rcases hx : f x with _ | y
    · exact ih fun a ha => hf a (by simp [ha])
    · have := hf x (by simp)
      rw [hx] at this
      exact this

theorem confOK_orElse (a : Option DateParseResult)
    (f : Unit → Option DateParseResult)
    (ha : confOK a) (hf : confOK (f ())) : confOK (a.orElse f) := by
  cases a with
  | none => exact hf
  | some r => exact ha

theorem confOK_stage_end_of_week (text : String) (ref : PyDateTime) :
    confOK (stage_end_of_week text ref) := by
  unfold stage_end_of_week
  exact confOK_ite _ _ _ ⟨by norm_num, by norm_num⟩ trivial

theorem confOK_stage_end_of_month (text : String) (ref : PyDateTime) :
    confOK (stage_end_of_month text ref) := by
  unfold stage_end_of_month
  exact confOK_ite _ _ _ ⟨by norm_num, by norm_num⟩ trivial

theorem confOK_stage_next_quarter (text : String) (ref : PyDateTime) :
    confOK (stage_next_quarter text ref) := by
  unfold stage_next_quarter
  exact confOK_ite _ _ _ ⟨by norm_num, by norm_num⟩ trivial

theorem confOK_stage_relative (text : String) (ref : PyDateTime) :
    confOK (stage_relative text ref) := by
  unfold stage_relative
  refine confOK_findSome? _ _ ?_
  rintro ⟨k, d⟩ _
  exact confOK_ite _ _ _ ⟨by norm_num, by norm_num⟩ trivial

theorem confOK_stage_week (text : String) (ref : PyDateTime) :
    confOK (stage_week text ref) := by
  unfold stage_week
  refine confOK_findSome? _ _ ?_
  rintro ⟨k, v⟩ _
  exact confOK_ite _ _ _ (confOK_map _ _ fun d => ⟨by norm_num, by norm_num⟩) trivial

theorem confOK_stage_next_day (text : String) (ref : PyDateTime) :
    confOK (stage_next_day text ref) := by
  unfold stage_next_day
  refine confOK_findSome? _ _ fun p _ => ?_
  refine confOK_bind _ _ ?_
  rintro ⟨_, caps, _, _⟩
  refine confOK_bind _ _ fun g1 => ?_
  exact confOK_map _ _ fun wd => ⟨by norm_num, by norm_num⟩

theorem confOK_stage_this_day (text : String) (ref : PyDateTime) :
    confOK (stage_this_day text ref) := by
  unfold stage_this_day
  refine confOK_findSome? _ _ fun p _ => ?_
  refine confOK_bind _ _ ?_
  rintro ⟨_, caps, _, _⟩
  refine confOK_bind _ _ fun g1 => ?_
  exact confOK_map _ _ fun wd => ⟨by norm_num, by norm_num⟩

theorem confOK_stage_in_days (text : String) (ref : PyDateTime) :
    confOK (stage_in_days text ref) := by
  unfold stage_in_days
  refine confOK_findSome? _ _ fun p _ => ?_
  refine confOK_bind _ _ ?_
  rintro ⟨_, caps, _, _⟩
  exact confOK_map _ _ fun g1 => ⟨by norm_num, by norm_num⟩

theorem confOK_stage_day_names (text : String) (ref : PyDateTime) :
    confOK (stage_day_names text ref) := by
  unfold stage_day_names
  refine confOK_findSome? _ _ ?_
  rintro ⟨nm, wd⟩ _
  exact confOK_ite _ _ _ ⟨by norm_num, by norm_num⟩ trivial

theorem confOK_stage_iso (text : String) :
    confOK (stage_iso text) := by
  unfold stage_iso
  refine confOK_bind _ _ ?_
  rintro ⟨_, caps, _, _⟩
  refine confOK_bind _ _ fun g1 => ?_
  refine confOK_bind _ _ fun g2 => ?_
  refine confOK_bind _ _ fun g3 => ?_
  exact confOK_ite _ _ _ ⟨by norm_num, by norm_num⟩ trivial

theorem confOK_stage_slash (text : String) (ref : PyDateTime) :
    confOK (stage_slash text ref) := by
  unfold stage_slash
  refine confOK_bind _ _ ?_
  rintro ⟨_, caps, _, _⟩
  refine confOK_bind _ _ fun g1 => ?_
  refine confOK_bind _ _ fun g2 => ?_
  dsimp only
  exact confOK_ite _ _ _ ⟨by norm_num, by norm_num⟩ trivial

theorem parse_natural_date_conf_bounds (text : String) (ref : PyDateTime) :
    0 ≤ (parse_natural_date text ref).confidence ∧
    (parse_natural_date text ref).confidence ≤ 1 := by
  unfold parse_natural_date
  have hchain : confOK
      ((stage_end_of_week text ref).orElse fun _ =>
       (stage_end_of_month text ref).orElse fun _ =>
       (stage_next_quarter text ref).orElse fun _ =>
       (stage_relative text ref).orElse fun _ =>
       (stage_week text ref).orElse fun _ =>
       (stage_next_day text ref).orElse fun _ =>
       (stage_this_day text ref).orElse fun _ =>
       (stage_in_days text ref).orElse fun _ =>
       (stage_day_names text ref).orElse fun _ =>
       (stage_iso text).orElse fun _ =>
       stage_slash text ref) := by
    refine confOK_orElse _ _ (confOK_stage_end_of_week text ref) ?_
    refine confOK_orElse _ _ (confOK_stage_end_of_month text ref) ?_
    refine confOK_orElse _ _ (confOK_stage_next_quarter text ref) ?_
    refine confOK_orElse _ _ (confOK_stage_relative text ref) ?_
    refine confOK_orElse _ _ (confOK_stage_week text ref) ?_
    refine confOK_orElse _ _ (confOK_stage_next_day text ref) ?_
    refine confOK_orElse _ _ (confOK_stage_this_day text ref) ?_
    refine confOK_orElse _ _ (confOK_stage_in_days text ref) ?_
    refine confOK_orElse _ _ (confOK_stage_day_names text ref) ?_
    refine confOK_orElse _ _ (confOK_stage_iso text) ?_
    exact confOK_stage_slash text ref
  generalize hchainEq :
      ((stage_end_of_week text ref).orElse fun _ =>
       (stage_end_of_month text ref).orElse fun _ =>
       (stage_next_quarter text ref).orElse fun _ =>
       (stage_relative text ref).orElse fun _ =>
       (stage_week text ref).orElse fun _ =>
       (stage_next_day text ref).orElse fun _ =>
       (stage_this_day text ref).orElse fun _ =>
       (stage_in_days text ref).orElse fun _ =>
       (stage_day_names text ref).orElse fun _ =>
       (stage_iso text).orElse fun _ =>
       stage_slash text ref) = o at hchain ⊢
  cases o with
  | none => exact ⟨by norm_num, by norm_num⟩
  | some r => exact hchain

theorem parse_date_and_time_conf_bounds (text : String) (ref : PyDateTime)
    (r : DateParseResult) (h : parse_date_and_time text ref = some r) :
    0 ≤ r.confidence ∧ r.confidence ≤ 1 := by
  have hbase := parse_natural_date_conf_bounds text { ref with hour := 0, minute := 0 }
  unfold parse_date_and_time at h
  dsimp only at h
  rcases hd : (parse_natural_date text { ref with hour := 0, minute := 0 }).date
      with _ | d <;> rw [hd] at h <;> dsimp only at h
  · cases h
    exact hbase
  · rcases ht : parse_time_from_text text with _ | ⟨hh, mm⟩ <;>
      rw [ht] at h <;> dsimp only at h
    · cases h
      exact hbase
    · split at h
      · cases h
        refine ⟨?_, min_le_right _ _⟩
        refine le_min ?_ (by norm_num)
        have := hbase.1
        linarith
      · cases h

theorem suggest_priority_conf_bounds (title : String) (desc : Option String) :
    0 ≤ (suggest_priority title desc).confidence ∧
    (suggest_priority title desc).confidence ≤ 1 := by
  unfold suggest_priority
  dsimp only
  rcases h1 : List.find? (fun k => pyIn k (pyLower (title ++ " " ++ desc.getD "")))
      HIGH_PRIORITY_KEYWORDS with _ | k1 <;> dsimp only
  · rcases h2 : List.find? (fun k => pyIn k (pyLower (title ++ " " ++ desc.getD "")))
        LOW_PRIORITY_KEYWORDS with _ | k2 <;> dsimp only
    · rcases h3 : List.find? (fun k => pyIn k (pyLower (title ++ " " ++ desc.getD "")))
          TIME_SENSITIVE_KEYWORDS with _ | k3 <;> dsimp only
      · exact ⟨by norm_num, by norm_num⟩
      · exact ⟨by norm_num, by norm_num⟩
    · exact ⟨by norm_num, by norm_num⟩
  · exact ⟨by norm_num, by norm_num⟩

theorem estimate_time_conf_bounds (title : String) (tasks : List CompletedTask) :
    0 ≤ (estimate_time title tasks).confidence ∧
    (estimate_time title tasks).confidence ≤ 1 := by
  unfold estimate_time
  dsimp only
  by_cases hsd : similarDurations (pyLower title) tasks ≠ []
  · rw [if_pos hsd]
    dsimp only
    refine ⟨le_min (by norm_num) ?_, le_trans (min_le_left _ _) (by norm_num)⟩
    have h0 : (0 : ℚ) ≤ ((similarDurations (pyLower title) tasks).length : ℚ) * 0.1 := by
      positivity
    linarith
  · rw [if_neg hsd]
    constructor <;> (split <;> (dsimp only; norm_num))


theorem suggest_tags_from_history_conf_bounds (task_title : String)
    (user_tags_history : List String) :
    0 ≤ (suggest_tags_from_history task_title user_tags_history).confidence ∧
    (suggest_tags_from_history task_title user_tags_history).confidence ≤ 1 := by
  unfold suggest_tags_from_history
  dsimp only
  split
  · exact ⟨by norm_num, by norm_num⟩
  · split
    · exact ⟨by norm_num, by norm_num⟩
    · exact ⟨by norm_num, by norm_num⟩

theorem suggest_focus_tasks_conf_bounds (tasks : List TaskRow)
    (today : PyDateTime) :
    0 ≤ (suggest_focus_tasks tasks today).confidence ∧
    (suggest_focus_tasks tasks today).confidence ≤ 1 := by
  unfold suggest_focus_tasks
  dsimp only
  split
  · exact ⟨by norm_num, by norm_num⟩
  · exact ⟨by norm_num, by norm_num⟩

theorem suggest_similar_tasks_conf_bounds (new_task_title : String)
    (existing_tasks : List TaskRow) (max_suggestions : Nat) :
    0 ≤ (suggest_similar_tasks new_task_title existing_tasks max_suggestions).confidence ∧
    (suggest_similar_tasks new_task_title existing_tasks max_suggestions).confidence ≤ 1 := by
  unfold suggest_similar_tasks
  dsimp only
  split
  · exact ⟨by norm_num, by norm_num⟩
  · exact ⟨by norm_num, by norm_num⟩

theorem detect_scheduling_conflicts_conf_bounds (new_task_due_date : PyDateTime)
    (existing_tasks : List TaskRow) (max_daily_hours : ℚ) :
    0 ≤ (detect_scheduling_conflicts new_task_due_date existing_tasks max_daily_hours).confidence ∧
    (detect_scheduling_conflicts new_task_due_date existing_tasks max_daily_hours).confidence ≤ 1 := by
  unfold detect_scheduling_conflicts
  dsimp only
  split
  · exact ⟨by norm_num, by norm_num⟩
  · exact ⟨by norm_num, by norm_num⟩

theorem analyze_workload_conf_bounds (tasks : List TaskRow)
    (today : PyDateTime) (days_ahead : Nat) :
    0 ≤ (analyze_workload tasks today days_ahead).confidence ∧
    (analyze_workload tasks today days_ahead).confidence ≤ 1 := by
  unfold analyze_workload
  dsimp only
  split
  · exact ⟨by norm_num, by norm_num⟩
  · exact ⟨by norm_num, by norm_num⟩

theorem track_habits_conf_bounds (completed_tasks : List TaskRow) :
    0 ≤ (track_habits completed_tasks).confidence ∧
    (track_habits completed_tasks).confidence ≤ 1 := by
  unfold track_habits
  dsimp only
  split
  · exact ⟨by norm_num, by norm_num⟩
  · exact ⟨by norm_num, by norm_num⟩

/-- Claim C9: every confidence value produced by the date/time parser
(`parse_natural_date`; `parse_date_and_time` whenever it returns rather
than raising on an out-of-range explicit time) and by every
suggestion-engine function (`suggest_priority`, `estimate_time`,
`suggest_tags_from_history`, `suggest_focus_tasks`,
`suggest_similar_tasks`, `detect_scheduling_conflicts`,
`analyze_workload`, `track_habits`) lies in [0,1]; in particular the
`min(conf + 0.05, 1.0)` nudge and the `min(0.9, 0.5 + count*0.1)`
time-estimate confidence never exceed 1. -/
theorem confidence_values_in_unit_interval :
    (∀ (text : String) (ref : PyDateTime),
      0 ≤ (parse_natural_date text ref).confidence ∧
      (parse_natural_date text ref).confidence ≤ 1) ∧
    (∀ (text : String) (ref : PyDateTime) (r : DateParseResult),
      parse_date_and_time text ref = some r →
      0 ≤ r.confidence ∧ r.confidence ≤ 1) ∧
    (∀ (title : String) (desc : Option String),
      0 ≤ (suggest_priority title desc).confidence ∧
      (suggest_priority title desc).confidence ≤ 1) ∧
    (∀ (title : String) (tasks : List CompletedTask),
      0 ≤ (estimate_time title tasks).confidence ∧
      (estimate_time title tasks).confidence ≤ 1) ∧
    (∀ (title : String) (history : List String),
      0 ≤ (suggest_tags_from_history title history).confidence ∧
      (suggest_tags_from_history title history).confidence ≤ 1) ∧
    (∀ (tasks : List TaskRow) (today : PyDateTime),
      0 ≤ (suggest_focus_tasks tasks today).confidence ∧
      (suggest_focus_tasks tasks today).confidence ≤ 1) ∧
    (∀ (title : String) (tasks : List TaskRow) (maxs : Nat),
      0 ≤ (suggest_similar_tasks title tasks maxs).confidence ∧
      (suggest_similar_tasks title tasks maxs).confidence ≤ 1) ∧
    (∀ (due : PyDateTime) (tasks : List TaskRow) (maxh : ℚ),
      0 ≤ (detect_scheduling_conflicts due tasks maxh).confidence ∧
      (detect_scheduling_conflicts due tasks maxh).confidence ≤ 1) ∧
    (∀ (tasks : List TaskRow) (today : PyDateTime) (days_ahead : Nat),
      0 ≤ (analyze_workload tasks today days_ahead).confidence ∧
      (analyze_workload tasks today days_ahead).confidence ≤ 1) ∧
    (∀ (tasks : List TaskRow),
      0 ≤ (track_habits tasks).confidence ∧
      (track_habits tasks).confidence ≤ 1) :=
  ⟨parse_natural_date_conf_bounds, parse_date_and_time_conf_bounds,
   suggest_priority_conf_bounds, estimate_time_conf_bounds,
   suggest_tags_from_history_conf_bounds, suggest_focus_tasks_conf_bounds,
   suggest_similar_tasks_conf_bounds, detect_scheduling_conflicts_conf_bounds,
   analyze_workload_conf_bounds, track_habits_conf_bounds⟩

/-- Witness for C9: the `parse_date_and_time` conjunct applied at
`"tomorrow 3pm"` (where the +0.05 nudge fires on confidence 0.95). -/
theorem confidence_values_witness :
    0 ≤ (min ((0.95 : ℚ) + 0.05) 1) ∧ (min ((0.95 : ℚ) + 0.05) 1) ≤ 1 := by
  have h := confidence_values_in_unit_interval.2.1 "tomorrow 3pm" ⟨2024, 1, 1, 0, 0⟩
    ⟨some ⟨2024, 1, 2, 15, 0⟩, "tomorrow 3pm", min (0.95 + 0.05) 1⟩ rfl
  exact h

/-! ## C1: sanitizer lemmas -/

theorem mRE_eq_nil_of_firstLit :
    ∀ (r : RE) (c : Char), firstLit r = some c →
    ∀ (f : Nat) (s : List Char), s.head? ≠ some c → mRE f r s = [] := by
  intro r
  induction r with
  | str cs =>
    intro c hr f s hs
    cases f with
    | zero => rfl
    | succ f =>
      cases cs with
      | nil => simp [firstLit] at hr
      | cons c0 cs' =>
        unfold firstLit at hr
        have hc : c0 = c := by injection hr
        subst hc
        unfold mRE
        rw [if_neg]
        intro hpre
        cases s with
        | nil => simp [List.isPrefixOf] at hpre
        | cons d t =>
          simp only [List.isPrefixOf, Bool.and_eq_true, beq_iff_eq] at hpre
          exact hs (by simp [hpre.1])
  | cls k => intro c hr; simp [firstLit] at hr
  | seq a b iha ihb =>
    intro c hr f s hs
    unfold firstLit at hr
    cases f with
    | zero => rfl
    | succ f =>
      unfold mRE
      rw [iha c hr f s hs]
      rfl
  | alt a b iha ihb => intro c hr; simp [firstLit] at hr
  | rep lo hi g a ih => intro c hr; simp [firstLit] at hr
  | grp i a ih =>
    intro c hr f s hs
    unfold firstLit at hr
    cases f with
    | zero => rfl
    | succ f =>
      unfold mRE
      rw [ih c hr f s hs]
      rfl
  | eol => intro c hr; simp [firstLit] at hr

theorem reSearchGo_eq_none_of_firstLit (r : RE) (c : Char)
    (hr : firstLit r = some c) :
    ∀ (s acc : List Char), (∀ x ∈ s, x ≠ c) → reSearchGo r acc s = none := by
  intro s
  induction s with
  | nil =>
    intro acc _
    unfold reSearchGo
    rw [mRE_eq_nil_of_firstLit r c hr _ _ (by simp)]
    rfl
  | cons d t ih =>
    intro acc hall
    unfold reSearchGo
    rw [mRE_eq_nil_of_firstLit r c hr _ _ (by simp [hall d (by simp)])]
    exact ih (d :: acc) fun x hx => hall x (by simp [hx])

theorem reSub_eq_self_of_no_match (r : RE) (repl s : List Char)
    (h : reSearchGo r [] s = none) : reSub r repl s = s := by
  unfold reSub
  unfold reSubGo
  rw [h]

/-- On text with no `<` at all, the six tag-removal passes of
`_sanitize_response` are the identity: only the blank-line collapse and
the final `strip()` act. -/
theorem sanitize_response_markup_free (s : String) (h : '<' ∉ s.data) :
    sanitize_response s = whitespaceNormalize s := by
  have hall : ∀ x ∈ s.data, x ≠ '<' := fun x hx hc => h (hc ▸ hx)
  have e1 : reSub sanPat1 [] s.data = s.data :=
    reSub_eq_self_of_no_match _ _ _
      (reSearchGo_eq_none_of_firstLit _ '<' (by rfl) _ _ hall)
  have e2 : reSub sanPat2 [] s.data = s.data :=
    reSub_eq_self_of_no_match _ _ _
      (reSearchGo_eq_none_of_firstLit _ '<' (by rfl) _ _ hall)
  have e3 : reSub sanPat3 [] s.data = s.data :=
    reSub_eq_self_of_no_match _ _ _
      (reSearchGo_eq_none_of_firstLit _ '<' (by rfl) _ _ hall)
  have e4 : reSub sanPat4 [] s.data = s.data :=
    reSub_eq_self_of_no_match _ _ _
      (reSearchGo_eq_none_of_firstLit _ '<' (by rfl) _ _ hall)
  have e5 : reSub sanPat5 [] s.data = s.data :=
    reSub_eq_self_of_no_match _ _ _
      (reSearchGo_eq_none_of_firstLit _ '<' (by rfl) _ _ hall)
  have e6 : reSub sanPat6 [] s.data = s.data :=
    reSub_eq_self_of_no_match _ _ _
      (reSearchGo_eq_none_of_firstLit _ '<' (by rfl) _ _ hall)
  by_cases hs : s = ""
  · subst hs
    rfl
  · unfold sanitize_response
    rw [if_neg hs]
    dsimp only
    rw [e1, e2, e3, e4, e5, e6]
    rfl

/-- Claim C1, counterexample: both halves of the claim fail.  `"hi "`
contains no markup token, yet sanitizing strips the trailing space, so
the output is not byte-for-byte the input; and the dangling token
`"<function="` (unpaired, with no closing `>`) survives sanitization
verbatim, so the output is not markup-token-free. -/
theorem sanitize_response_counterexample :
    (containsAnyMarkup "hi " = false ∧ sanitize_response "hi " ≠ "hi ") ∧
    (containsAnyMarkup "<function=" = true ∧
     pyIn "<function=" (sanitize_response "<function=") = true) := by
  refine ⟨⟨by decide, by decide⟩, by decide, by decide⟩

/-- Claim C1 (amended): the sanitizer always whitespace-normalizes — on
input containing no `<` character the output is exactly the input with
blank-line whitespace runs collapsed and leading/trailing whitespace
stripped (so markup-free text passes through byte-for-byte only when
already in that normal form); complete markup blocks and tags are
removed (e.g. paired `<tool_call>`/`<function=...>`/`<parameter=...>`
blocks), but a dangling `<function=` with no later `>` survives. -/
theorem sanitize_response_behaviour :
    (∀ s : String, '<' ∉ s.data → sanitize_response s = whitespaceNormalize s) ∧
    sanitize_response
      "a<tool_call>x</tool_call>b<function=f>y</function>c<parameter=p>v</parameter>d"
      = "abcd" ∧
    sanitize_response "<function=" = "<function=" := by
  refine ⟨sanitize_response_markup_free, by decide, by decide⟩

/-- Witness for C1 (amended): the markup-free conjunct applied at a
concrete input with collapsible whitespace. -/
theorem sanitize_response_behaviour_witness :
    sanitize_response " ok\n \n done " = whitespaceNormalize " ok\n \n done " :=
  sanitize_response_behaviour.1 " ok\n \n done " (by decide)

/-! ## C4: recovery parser lemmas -/

/-- The unconsumed rest of any engine match is a suffix of the input. -/
theorem mRE_rest_suffix :
    ∀ (f : Nat) (r : RE) (s : List Char) (x : Caps × List Char),
      x ∈ mRE f r s → x.2 <:+ s := by
  intro f
  induction f with
  | zero => intro r s x h; simp [mRE] at h
  | succ f ih =>
    intro r s x h
    cases r with
    | str cs =>
      unfold mRE at h
      split at h
      · rw [List.mem_singleton] at h
        subst h
        exact List.drop_suffix _ _
      · simp at h
    | cls k =>
      cases s with
      | nil => simp [mRE] at h
      | cons c t =>
        rw [show mRE (f + 1) (.cls k) (c :: t) =
              if matchCls k c then [([], t)] else [] from rfl] at h
        split at h
        · rw [List.mem_singleton] at h
          subst h
          exact List.suffix_cons _ _
        · simp at h
    | seq a b =>
      unfold mRE at h
      rw [List.mem_flatMap] at h
      obtain ⟨⟨ca, s1⟩, h1, h2⟩ := h
      rw [List.mem_map] at h2
      obtain ⟨⟨cb, s2⟩, h3, h4⟩ := h2
      rw [← h4]
      exact (ih b s1 (cb, s2) h3).trans (ih a s (ca, s1) h1)
    | alt a b =>
      unfold mRE at h
      rw [List.mem_append] at h
      rcases h with h | h
      · exact ih a s x h
      · exact ih b s x h
    | rep lo hi g a =>
      cases lo with
      | succ l =>
        unfold mRE at h
        try dsimp only at h
        rw [List.mem_flatMap] at h
        obtain ⟨⟨ca, s1⟩, h1, h2⟩ := h
        rw [List.mem_map] at h2
        obtain ⟨⟨cb, s2⟩, h3, h4⟩ := h2
        rw [← h4]
        exact (ih _ s1 (cb, s2) h3).trans (ih a s (ca, s1) h1)
      | zero =>
        unfold mRE at h
        try dsimp only at h
        have hstep : ∀ (r' : RE) (y : Caps × List Char),
            y ∈ (mRE f a s).flatMap (fun p =>
              if p.2.length < s.length then
                (mRE f r' p.2).map (fun q => (mergeCaps p.1 q.1, q.2))
              else []) → y.2 <:+ s := by
          intro r' y hy
          rw [List.mem_flatMap] at hy
          obtain ⟨⟨ca, s1⟩, h1, h2⟩ := hy
          split at h2
          · rw [List.mem_map] at h2
            obtain ⟨⟨cb, s2⟩, h3, h4⟩ := h2
            rw [← h4]
            exact (ih r' s1 (cb, s2) h3).trans (ih a s (ca, s1) h1)
          · simp at h2
        split at h
        · rw [List.mem_singleton] at h
          subst h
          exact List.suffix_refl _
        · try dsimp only at h
          split at h
          · rw [List.mem_append] at h
            rcases h with h | h
            · exact hstep _ x h
            · rw [List.mem_singleton] at h
              subst h
              exact List.suffix_refl _
          · rcases List.mem_cons.mp h with h | h
            · subst h
              exact List.suffix_refl _
            · exact hstep _ x h
    | grp i a =>
      unfold mRE at h
      rw [List.mem_map] at h
      obtain ⟨⟨ca, s1⟩, h1, h2⟩ := h
      rw [← h2]
      exact ih a s (ca, s1) h1
    | eol =>
      unfold mRE at h
      split at h
      · rw [List.mem_singleton] at h
        subst h
        exact List.suffix_refl _
      · simp at h

/-- If a sequence matches, its right component matches on some suffix. -/
theorem mRE_seq_nonempty (f : Nat) (a b : RE) (s : List Char)
    (h : mRE f (.seq a b) s ≠ []) :
    ∃ s1, s1 <:+ s ∧ mRE (f - 1) b s1 ≠ [] := by
  cases f with
  | zero => simp [mRE] at h
  | succ f =>
    unfold mRE at h
    rw [ne_eq, List.flatMap_eq_nil_iff] at h
    push_neg at h
    obtain ⟨⟨ca, s1⟩, h1, h2⟩ := h
    refine ⟨s1, mRE_rest_suffix f a s (ca, s1) h1, ?_⟩
    simp only [Nat.add_sub_cancel]
    intro hnil
    exact h2 (by rw [hnil]; rfl)

/-- A nonempty match of a literal pattern means the literal is a prefix. -/
theorem mRE_str_nonempty (f : Nat) (cs s : List Char)
    (h : mRE f (.str cs) s ≠ []) : cs <+: s := by
  cases f with
  | zero => simp [mRE] at h
  | succ f =>
    unfold mRE at h
    split at h
    · exact List.isPrefixOf_iff_prefix.mp (by assumption)
    · simp at h

/-- Any match of `function_pattern` requires the literal `</function>`
to occur in the input: the pattern's last component is that literal. -/
theorem funcPat_needs_closing (f : Nat) (s : List Char)
    (h : mRE f funcPat s ≠ []) : "</function>".data <:+: s := by
  have e : funcPat = .seq (.str "<function=".data)
      (.seq (.grp 1 reWord1)
        (.seq (.str ">".data)
          (.seq (.grp 2 (.rep 0 none false (.cls .anyAll)))
            (.str "</function>".data)))) := rfl
  rw [e] at h
  obtain ⟨s1, hs1, h1⟩ := mRE_seq_nonempty _ _ _ _ h
  obtain ⟨s2, hs2, h2⟩ := mRE_seq_nonempty _ _ _ _ h1
  obtain ⟨s3, hs3, h3⟩ := mRE_seq_nonempty _ _ _ _ h2
  obtain ⟨s4, hs4, h4⟩ := mRE_seq_nonempty _ _ _ _ h3
  have hpre : "</function>".data <+: s4 := mRE_str_nonempty _ _ _ h4
  exact hpre.isInfix.trans
    ((hs4.isInfix.trans hs3.isInfix).trans (hs2.isInfix.trans hs1.isInfix))

/-- Without `</function>` in the text, the scan finds no match at any
position. -/
theorem reSearchGo_funcPat_none (s : List Char)
    (hno : listHasSub s "</function>".data = false) :
    ∀ acc, reSearchGo funcPat acc s = none := by
  induction s with
  | nil =>
    intro acc
    unfold reSearchGo
    have hnil : mRE (reFuel funcPat []) funcPat [] = [] := by
      by_contra hne
      have := funcPat_needs_closing _ _ hne
      rw [List.infix_nil] at this
      simp at this
    rw [hnil]
    rfl
  | cons c t ih =>
    intro acc
    unfold reSearchGo
    have hnil : mRE (reFuel funcPat (c :: t)) funcPat (c :: t) = [] := by
      by_contra hne
      have hinf := funcPat_needs_closing _ _ hne
      rw [← listHasSub_iff_isInfix] at hinf
      rw [hinf] at hno
      simp at hno
    rw [hnil]
    have hno' : listHasSub t "</function>".data = false := by
      unfold listHasSub at hno
      rcases Bool.or_eq_false_iff.mp hno with ⟨_, h2⟩
      exact h2
    exact ih hno' (c :: acc)

set_option maxRecDepth 10000 in
/-- Claim C4, counterexample: a call whose closing `</function>` marker
is missing is not recovered at all — `_parse_text_tool_calls` returns
`None` even though the text contains a function name and a complete
parameter pair. -/
theorem parse_text_tool_calls_missing_close_counterexample :
    parse_text_tool_calls
      "<function=add_task><parameter=title>Buy milk</parameter>" = none := by
  rfl

set_option maxRecDepth 10000 in
/-- Claim C4 (amended): the recovery parser requires a complete
`<function=name>...</function>` block — with no `</function>` anywhere in
the content it extracts nothing and returns `None`; inside a complete
block it is permissive about parameters: a parameter whose closing
marker is malformed or missing is dropped while well-formed siblings are
still extracted, and a parameter value that looks like a JSON array or
object is best-effort JSON-decoded (kept as a string when decoding
fails), other values are kept as strings. -/
theorem parse_text_tool_calls_spec :
    (∀ content : String, pyIn "</function>" content = false →
        parse_text_tool_calls content = none) ∧
    parse_text_tool_calls
        ("<function=add_task><parameter=bad>x<parameter=title>Buy milk</parameter>"
          ++ "<parameter=tags>[1, 2]</parameter></function>") =
      some [("add_task",
             [("title", PyVal.vstr "Buy milk"),
              ("tags", PyVal.varr [PyVal.vnum 1, PyVal.vnum 2])])] := by
  constructor
  · intro content hno
    unfold parse_text_tool_calls
    split
    · rfl
    · split
      · rfl
      · have hfind : reFindIter funcPat content.data = [] := by
          unfold reFindIter reFindIterGo
          rw [reSearchGo_funcPat_none content.data hno []]
        rw [hfind]
        rfl
  · rfl

set_option maxRecDepth 10000 in
/-- Witness for C4 (amended): the universally quantified conjunct applied
at the concrete close-less content. -/
theorem parse_text_tool_calls_spec_witness :
    parse_text_tool_calls "<function=add_task><parameter=title>Buy milk" = none :=
  parse_text_tool_calls_spec.1
    "<function=add_task><parameter=title>Buy milk" (by decide)
